import Mathlib

/-!
# Asteroid impact calculator

A model of `static/calculations.js` (impact metrics and insights) and of the animation
state machine of `static/impact.js`.

## Numbers

A JavaScript number is modelled by an element of a linearly ordered field `α` with a floor
function: arithmetic is exact (`ℚ` evaluates, `ℝ` has the roots), so binary rounding,
overflow and the infinities are outside the model. The value NaN is `none` of `Option α`;
a function whose result can be NaN on finite arguments returns `Option α`.

## Objects

`obj[key]` on an object literal finds the literal's own entries and, failing that, what
every object inherits from `Object.prototype`; only then is it `undefined`.
-/

namespace Asteroid

/-! ## JavaScript primitives -/

/-- What `obj[key]` evaluates to on an object literal with entries of type `β`. -/
inductive JSProp (β : Type) where
  /-- an entry written in the literal -/
  | own (v : β)
  /-- the member of `Object.prototype` of that name (a function, or the prototype itself) -/
  | inherited (key : String)
  /-- no such property -/
  | undefined
  deriving DecidableEq, Repr

/-- The property names every object literal inherits from `Object.prototype`
(ECMAScript 20.1.3 and B.2.2). -/
def objectPrototypeKeys : List String :=
  ["constructor", "hasOwnProperty", "isPrototypeOf", "propertyIsEnumerable",
   "toLocaleString", "toString", "valueOf", "__proto__",
   "__defineGetter__", "__defineSetter__", "__lookupGetter__", "__lookupSetter__"]

/-- Property read `obj[key]`: own entries first, then the prototype. -/
def getProp {β : Type} (obj : List (String × β)) (key : String) : JSProp β :=
  match obj.lookup key with
  | some v => JSProp.own v
  | none => if key ∈ objectPrototypeKeys then JSProp.inherited key else JSProp.undefined

/-- The operator `a || b` on property values. The entries of the tables below (objects and
non-empty strings) and the inherited members are truthy; only `undefined` is falsy. -/
def JSProp.or {β : Type} (a b : JSProp β) : JSProp β :=
  match a with
  | JSProp.undefined => b
  | _ => a

/-- The functions of the JavaScript runtime that the program calls and that exact
field arithmetic does not define. -/
structure JSMath (α : Type) where
  /-- `Math.pow`; `none` is NaN -/
  pow : α → α → Option α
  /-- `Math.sqrt`; `none` is NaN -/
  sqrt : α → Option α
  /-- `Math.PI` -/
  PI : α
  /-- `Math.sin` -/
  sin : α → α
  /-- `Math.cos` -/
  cos : α → α

/-- The conversions to a string that a template literal applies to its holes. -/
structure JSText (α : Type) where
  /-- conversion of a number -/
  numToString : α → String
  /-- conversion of an inherited member of `Object.prototype` -/
  builtinToString : String → String

section Calculations

variable {α : Type} [LinearOrderedField α] [FloorRing α]

/-- `Math.round`: the nearest integer, a tie going up. -/
def jsRound (x : α) : α := ((⌊x + 1 / 2⌋ : ℤ) : α)

/-- The expression `x || 0` on a number: NaN and a missing field become 0
(and 0 stays 0). -/
def orZero (x : Option α) : α := x.getD 0

/-! ## calculations.js -/

/-- `kineticEnergy(m, v)`, calculations.js 3-5. -/
def kineticEnergy (m v : α) : α := 0.5 * m * v * v

/-- An entry of the table `materialProps` of `craterDiameterKm`. -/
structure MaterialProfile (α : Type) where
  density : α
  gravity : α
  k : α
  name : String

/-- The table `materialProps` of `craterDiameterKm`, calculations.js 8-14. -/
def craterDiameterKm.materialProps : List (String × MaterialProfile α) :=
  [("water", ⟨1000, 9.81, 2.1, "Water/Ocean"⟩),
   ("rock", ⟨2500, 9.81, 1.8, "Rock/Solid Ground"⟩),
   ("ice", ⟨900, 9.81, 2.5, "Ice/Glacier"⟩),
   ("sand", ⟨1600, 9.81, 2.8, "Desert Sand"⟩),
   ("forest", ⟨1200, 9.81, 2.2, "Forest/Vegetation"⟩)]

/-- `craterDiameterKm(m, v, targetMaterial)`, calculations.js 7-20. When `props` is an
inherited member of `Object.prototype`, `props.k`, `props.gravity` and `props.density`
are `undefined` and the arithmetic on them gives NaN. -/
def craterDiameterKm (J : JSMath α) (m v : α) (targetMaterial : String) : Option α :=
  let props := (getProp craterDiameterKm.materialProps targetMaterial).or
    (getProp craterDiameterKm.materialProps "rock")
  let ke := kineticEnergy m v
  match props with
  | JSProp.own p =>
    (J.pow (ke / (p.gravity * p.density)) 0.25).bind fun r =>
    let diameterM := p.k * r
    some (diameterM / 1000)
  | _ => none

/-- `airBlastRadiusKm(m, v)`, calculations.js 22-26. -/
def airBlastRadiusKm (J : JSMath α) (m v : α) : Option α :=
  let ke := kineticEnergy m v
  (J.pow ke (1 / 3)).map fun r => 0.0018 * r

/-- `shockWaveRadiusKm(m, v, k)`, calculations.js 28-32; the default of `k` is 0.0015. -/
def shockWaveRadiusKm (J : JSMath α) (m v : α) (k : α) : Option α :=
  let ke := kineticEnergy m v
  (J.pow ke (1 / 3)).map fun r => k * r

/-- `thermalRadiationRadiusKm(m, v, thermalFraction, fluenceThreshold)`,
calculations.js 34-40; the defaults are 0.2 and 150000. -/
def thermalRadiationRadiusKm (J : JSMath α) (m v : α) (thermalFraction fluenceThreshold : α) :
    Option α :=
  let ke := kineticEnergy m v
  let thermalEnergy := thermalFraction * ke
  (J.sqrt (thermalEnergy / (4 * J.PI * fluenceThreshold))).map fun radiusM => radiusM / 1000

/-- The record returned by `calculateAllMetrics` and read by `generateInsights` and by the
animation; a numeric field that is NaN or missing is `none`. -/
structure ImpactMetrics (α : Type) where
  mass_tons : Option α
  velocity_kms : Option α
  energy_megatons_tnt : Option α
  crater_km : Option α
  air_km : Option α
  shock_km : Option α
  thermal_km : Option α
  severity : String
  target_material : JSProp String

/-- The local `mass` of `calculateAllMetrics`, calculations.js 89. -/
def calculateAllMetrics.mass (massTons : α) : α := massTons * 1000

/-- The local `velocity` of `calculateAllMetrics`, calculations.js 90. -/
def calculateAllMetrics.velocity (velocityKms : α) : α := velocityKms * 1000

/-- The local `keJoules` of `calculateAllMetrics`, calculations.js 92. -/
def calculateAllMetrics.keJoules (massTons velocityKms : α) : α :=
  kineticEnergy (calculateAllMetrics.mass massTons) (calculateAllMetrics.velocity velocityKms)

/-- The local `energyMegatonsTnt` of `calculateAllMetrics`, calculations.js 93. -/
def calculateAllMetrics.energyMegatonsTnt (massTons velocityKms : α) : α :=
  calculateAllMetrics.keJoules massTons velocityKms * 2.1e-16

/-- The severity heuristic of `calculateAllMetrics`, calculations.js 100-111. -/
def calculateAllMetrics.severity (energyMegatonsTnt : α) : String :=
  if energyMegatonsTnt < 0.1 then "Very Low"
  else if energyMegatonsTnt < 1 then "Low"
  else if energyMegatonsTnt < 10 then "Moderate"
  else if energyMegatonsTnt < 100 then "High"
  else "Extreme"

/-- The table `materialProps` of `calculateAllMetrics`, calculations.js 113-119. -/
def calculateAllMetrics.materialProps : List (String × String) :=
  [("water", "Water/Ocean"),
   ("rock", "Rock/Solid Ground"),
   ("ice", "Ice/Glacier"),
   ("sand", "Desert Sand"),
   ("forest", "Forest/Vegetation")]

/-- The expression `Math.round(x * 1000) / 1000` of calculations.js 122-128. -/
def round3 (x : α) : α := jsRound (x * 1000) / 1000

/-- `calculateAllMetrics(massTons, velocityKms, targetMaterial)`, calculations.js 88-132. -/
def calculateAllMetrics (J : JSMath α) (massTons velocityKms : α) (targetMaterial : String) :
    ImpactMetrics α :=
  let mass := calculateAllMetrics.mass massTons
  let velocity := calculateAllMetrics.velocity velocityKms
  let energyMegatonsTnt := calculateAllMetrics.energyMegatonsTnt massTons velocityKms
  let craterKm := craterDiameterKm J mass velocity targetMaterial
  let airKm := airBlastRadiusKm J mass velocity
  let shockKm := shockWaveRadiusKm J mass velocity 0.0015
  let thermalKm := thermalRadiationRadiusKm J mass velocity 0.2 150000
  { mass_tons := some (round3 massTons)
    velocity_kms := some (round3 velocityKms)
    energy_megatons_tnt := some (round3 energyMegatonsTnt)
    crater_km := craterKm.map round3
    air_km := airKm.map round3
    shock_km := shockKm.map round3
    thermal_km := thermalKm.map round3
    severity := calculateAllMetrics.severity energyMegatonsTnt
    target_material :=
      (getProp calculateAllMetrics.materialProps targetMaterial).or
        (JSProp.own "Rock/Solid Ground") }

/-- The callback of `effects.reduce` in `generateInsights`, calculations.js 63:
`(max, curr) => curr[0] > max[0] ? curr : max`. -/
def generateInsights.pick (max curr : α × String) : α × String :=
  if curr.1 > max.1 then curr else max

/-- The local `largest` of `generateInsights`, calculations.js 58-63. `reduce` without an
initial value starts from the first element of `effects` and folds the rest from the
left. -/
def generateInsights.largest (metrics : ImpactMetrics α) : α × String :=
  let airKm := orZero metrics.air_km
  let shockKm := orZero metrics.shock_km
  let thermalKm := orZero metrics.thermal_km
  List.foldl generateInsights.pick (airKm, "Air blast radius")
    [(shockKm, "Shock wave radius"), (thermalKm, "Thermal radiation radius")]

/-- The local `targetMaterial` of `generateInsights` as it prints in the template literal,
calculations.js 79-80: `metrics.target_material || "Rock/Solid Ground"`. -/
def generateInsights.targetMaterial (T : JSText α) (metrics : ImpactMetrics α) : String :=
  match metrics.target_material with
  | JSProp.own s => if s = "" then "Rock/Solid Ground" else s
  | JSProp.inherited key => T.builtinToString key
  | JSProp.undefined => "Rock/Solid Ground"

/-- `generateInsights(metrics)`, calculations.js 42-86. -/
def generateInsights (T : JSText α) (metrics : ImpactMetrics α) : List String :=
  let energy := orZero metrics.energy_megatons_tnt
  let massTons := orZero metrics.mass_tons
  let velocityKms := orZero metrics.velocity_kms
  let craterKm := orZero metrics.crater_km
  let airKm := orZero metrics.air_km
  let shockKm := orZero metrics.shock_km
  let thermalKm := orZero metrics.thermal_km
  let insights : List String := []
  let insights := insights ++
    ["Kinetic energy rises strongly with speed (E ∝ v²). At " ++ T.numToString velocityKms ++
      " km/s, even modest mass (" ++ T.numToString massTons ++ " t) can yield " ++
      T.numToString energy ++ " Mt TNT."]
  let largest := generateInsights.largest metrics
  let insights := insights ++
    [largest.2 ++ " is the largest zone here. Atmospheric pressure waves travel farther than intense heat, so blast/shock often extend beyond thermal effects."]
  let insights := insights ++
    [if shockKm ≥ thermalKm then
      "Shock wave ≥ Thermal: Pressure waves attenuate more slowly with distance, while thermal radiation drops roughly with 1/r² and is absorbed by the atmosphere."
    else
      "Thermal ≥ Shock: A large fraction of energy coupled into heat can drive a wider thermal zone in this scenario."]
  let insights := insights ++
    (if airKm ≥ craterKm then
      ["Air blast ≫ Crater: Cratering is local to the impact point, but blast effects propagate through the atmosphere over much larger distances."]
    else [])
  let insights := insights ++
    ["Scaling note: Crater size grows sub‑linearly with energy (~E^1/4), while blast/thermal radii grow a bit faster (~E^1/3), so radii can outpace crater size."]
  let insights := insights ++
    ["Target: " ++ generateInsights.targetMaterial T metrics ++
      ". Softer materials (water, ice) create larger craters, while dense rock produces smaller, deeper craters."]
  let insights := insights ++
    ["Overall severity rated as '" ++ metrics.severity ++
      "'. Reducing speed or mass reduces energy fastest (speed has the biggest effect)."]
  insights

end Calculations

section Animation

variable {α : Type} [LinearOrderedField α] [FloorRing α]

/-! ## impact.js

The canvas is write-only: the drawing calls (`clear`, `drawMeteor`, `drawRings`,
`drawParticles`, `drawCraterParticles`, `drawRingLabels`, `drawLegend`) read the state
and change none of it, so the step function leaves them out. `Math.random()` is an
oracle: its successive results are `random 0, random 1, ...` and the state counts the
calls made so far. -/

/-- What is fixed for one animation session: the runtime, the canvas size and the
metrics record parsed from the page. -/
structure Scene (α : Type) where
  J : JSMath α
  T : JSText α
  /-- the successive results of `Math.random()` -/
  random : ℕ → α
  /-- `canvas.width` -/
  W : α
  /-- `canvas.height` -/
  H : α
  metrics : ImpactMetrics α

/-- An explosion particle, impact.js 120-127. -/
structure Particle (α : Type) where
  x : α
  y : α
  vx : α
  vy : α
  life : α
  color : String

/-- A crater particle, impact.js 164-173. -/
structure CraterParticle (α : Type) where
  x : α
  y : α
  vx : α
  vy : α
  life : α
  size : α
  color : String
  type : α

/-- The mutable variables of the animation closure: `frame` (impact.js 112), `particles`
(115), `craterParticles` (132), the three flags and `restartButton` (487-490; `true` when
the variable holds the button element, `false` when it is `null`), and the number of
`Math.random()` calls made so far. -/
structure AnimationState (α : Type) where
  frame : ℕ
  particles : List (Particle α)
  craterParticles : List (CraterParticle α)
  exploded : Bool
  craterFormed : Bool
  animationComplete : Bool
  restartButton : Bool
  draws : ℕ

/-- The values the closure's variables are declared with. -/
def initialState : AnimationState α :=
  { frame := 0, particles := [], craterParticles := [], exploded := false,
    craterFormed := false, animationComplete := false, restartButton := false, draws := 0 }

/-- `groundY`, impact.js 93. -/
def groundY (S : Scene α) : α := jsRound (S.H * 0.75)

/-- `maxEffectKm`, impact.js 96. -/
def maxEffectKm (S : Scene α) : α :=
  max 1 (max (orZero S.metrics.air_km) (max (orZero S.metrics.shock_km)
    (orZero S.metrics.thermal_km)))

/-- `maxVisualRadius`, impact.js 97. -/
def maxVisualRadius (S : Scene α) : α := min S.W (groundY S) * 0.45

/-- `kmToPx`, impact.js 98. -/
def kmToPx (S : Scene α) (km : α) : α := (km / maxEffectKm S) * maxVisualRadius S

/-- A ring of `rings`, impact.js 100-104. -/
structure Ring (α : Type) where
  name : String
  km : α
  colorFill : String
  colorStroke : String

/-- `rings`, impact.js 100-104. -/
def rings (S : Scene α) : List (Ring α) :=
  [⟨"Thermal", orZero S.metrics.thermal_km, "rgba(255,140,0,0.12)", "rgba(255,140,0,0.9)"⟩,
   ⟨"Shock", orZero S.metrics.shock_km, "rgba(220,20,60,0.10)", "rgba(220,20,60,0.9)"⟩,
   ⟨"Air", orZero S.metrics.air_km, "rgba(65,105,225,0.10)", "rgba(65,105,225,0.9)"⟩]

/-- `impactX`, impact.js 107. -/
def impactX (S : Scene α) : α := S.W * 0.5

/-- `impactY`, impact.js 108. -/
def impactY (S : Scene α) : α := groundY S - 2

/-- `travelTime`, impact.js 111. -/
def travelTime : ℕ := 90

/-- One iteration of the loop of `spawnParticles`, impact.js 118-127. -/
def spawnParticles.body (S : Scene α) (s : AnimationState α) (i : ℕ) : AnimationState α :=
  let angle := S.random s.draws * S.J.PI * 2
  let speed := 0.8 + S.random (s.draws + 1) * 1.8
  let p : Particle α :=
    { x := impactX S
      y := impactY S
      vx := S.J.cos angle * speed
      vy := S.J.sin angle * speed
      life := 40 + S.random (s.draws + 2) * 25
      color := if i % 2 ≠ 0 then "rgba(255,180,0,0.75)" else "rgba(255,100,0,0.75)" }
  { s with particles := s.particles ++ [p], draws := s.draws + 3 }

/-- `spawnParticles(n)`, impact.js 116-129. -/
def spawnParticles (S : Scene α) (n : ℕ) (s : AnimationState α) : AnimationState α :=
  (List.range n).foldl (spawnParticles.body S) s

/-- The local `craterR` of `spawnCraterParticles`, impact.js 134. -/
def spawnCraterParticles.craterR (S : Scene α) : α :=
  max 2 (kmToPx S (orZero S.metrics.crater_km) * 0.5)

/-- The local `numParticles` of `spawnCraterParticles`, impact.js 135. -/
def spawnCraterParticles.numParticles (S : Scene α) : ℕ :=
  (min 120 ⌊spawnCraterParticles.craterR S * 3⌋).toNat

/-- The text `rgba(r, g, b, a)` built by the template literals of impact.js 149-159. -/
def rgba (T : JSText α) (r g b : α) (a : String) : String :=
  "rgba(" ++ T.numToString r ++ ", " ++ T.numToString g ++ ", " ++ T.numToString b ++ ", " ++
    a ++ ")"

/-- One iteration of the loop of `spawnCraterParticles`, impact.js 138-173. The ten
calls of `Math.random()` are numbered in the order in which they are evaluated. -/
def spawnCraterParticles.body (S : Scene α) (s : AnimationState α) (_i : ℕ) :
    AnimationState α :=
  let rnd := fun (j : ℕ) => S.random (s.draws + j)
  let craterR := spawnCraterParticles.craterR S
  let angle := rnd 0 * S.J.PI * 2
  let distance := rnd 1 * craterR
  let x := impactX S + S.J.cos angle * distance
  let y := impactY S + S.J.sin angle * distance
  let particleType := rnd 2
  let csv : String × α × α :=
    if particleType < 0.3 then
      (rgba S.T (160 + rnd 3 * 40) (82 + rnd 4 * 20) (45 + rnd 5 * 15) "0.9",
        2 + rnd 6 * 3, -3 - rnd 7 * 4)
    else if particleType < 0.7 then
      (rgba S.T (139 + rnd 3 * 50) (69 + rnd 4 * 30) (19 + rnd 5 * 20) "0.7",
        1 + rnd 6 * 2, -2 - rnd 7 * 3)
    else
      (rgba S.T (205 + rnd 3 * 30) (133 + rnd 4 * 40) (63 + rnd 5 * 20) "0.6",
        0.5 + rnd 6 * 1, -1 - rnd 7 * 2)
  let p : CraterParticle α :=
    { x := x
      y := y
      vx := S.J.cos angle * (0.8 + rnd 8 * 2)
      vy := csv.2.2
      life := 80 + rnd 9 * 60
      size := csv.2.1
      color := csv.1
      type := particleType }
  { s with craterParticles := s.craterParticles ++ [p], draws := s.draws + 10 }

/-- `spawnCraterParticles()`, impact.js 133-175. -/
def spawnCraterParticles (S : Scene α) (s : AnimationState α) : AnimationState α :=
  (List.range (spawnCraterParticles.numParticles S)).foldl (spawnCraterParticles.body S) s

/-- The body of the loop of `updateParticles` on one particle, impact.js 179-183. -/
def updateParticles.move (p : Particle α) : Particle α :=
  { p with x := p.x + p.vx, y := p.y + p.vy, vy := p.vy + 0.03, life := p.life - 1 }

/-- `updateParticles()`, impact.js 177-186: the loop runs from the last particle to
the first and splices out the particle it has just moved when its life is used up. -/
def updateParticles (particles : List (Particle α)) : List (Particle α) :=
  particles.foldr
    (fun p rest =>
      let p := updateParticles.move p
      if p.life ≤ 0 then rest else p :: rest)
    []

/-- The body of the loop of `updateCraterParticles` on one particle, impact.js 190-201;
`r` is the result of `Math.random()`, read only by large debris. -/
def updateCraterParticles.move (p : CraterParticle α) (r : α) : CraterParticle α :=
  let x := p.x + p.vx
  let y := p.y + p.vy
  let vy := p.vy + 0.06
  let vx := p.vx * 0.99
  let vx := if p.type < 0.3 then vx + (r - 0.5) * 0.1 else vx
  { p with x := x, y := y, vx := vx, vy := vy, life := p.life - 1 }

/-- `updateCraterParticles()`, impact.js 188-204: from the last particle to the first;
the pair is the particles kept so far and the count of `Math.random()` calls. -/
def updateCraterParticles (S : Scene α) (s : AnimationState α) : AnimationState α :=
  let out : List (CraterParticle α) × ℕ :=
    s.craterParticles.foldr
      (fun p acc =>
        let q := updateCraterParticles.move p (S.random acc.2)
        let draws := if p.type < 0.3 then acc.2 + 1 else acc.2
        if q.life ≤ 0 then (acc.1, draws) else (q :: acc.1, draws))
      ([], s.draws)
  { s with craterParticles := out.1, draws := out.2 }

/-- The radius `finalR` that `drawRings(expansion)` draws for a ring of `km` kilometres,
impact.js 287-300. -/
def drawRings.finalR (S : Scene α) (expansion km : α) : α :=
  let easedExpansion := 1 - (1 - expansion) ^ 3
  let targetR := kmToPx S km
  let currentR := targetR * easedExpansion
  let pulseEffect :=
    if expansion ≥ 0.95 then
      let pulsePhase := (expansion - 0.95) * 20
      1 + S.J.sin (pulsePhase * S.J.PI * 4) * 0.1
    else 1
  currentR * pulseEffect

/-- `resetAnimation()`, impact.js 492-503. -/
def resetAnimation (s : AnimationState α) : AnimationState α :=
  let s := { s with frame := 0 }
  let s := { s with exploded := false }
  let s := { s with craterFormed := false }
  let s := { s with animationComplete := false }
  let s := { s with particles := [] }
  let s := { s with craterParticles := [] }
  if s.restartButton then { s with restartButton := false } else s

/-- `createRestartButton()`, impact.js 505-540. -/
def createRestartButton (s : AnimationState α) : AnimationState α :=
  if s.restartButton then s else { s with restartButton := true }

/-- The local `ex` of `tick`, impact.js 548. -/
def tick.ex (frame : ℕ) : α := min 1 (((frame : α) - (travelTime : α)) / 90)

/-- The local `craterStart` of `tick`, impact.js 555. -/
def tick.craterStart : ℕ := 90

/-- The local `craterFormationTime` of `tick`, impact.js 556. -/
def tick.craterFormationTime : α := 60

/-- The local `craterProgress` of `tick`, impact.js 557. -/
def tick.craterProgress (frame : ℕ) : α :=
  max 0 (min 1 (((frame : α) - (tick.craterStart : α)) / tick.craterFormationTime))

/-- The explosion burst of `tick`, impact.js 549-552. -/
def tick.explode (S : Scene α) (s : AnimationState α) : AnimationState α :=
  if !s.exploded then { spawnParticles S 40 s with exploded := true } else s

/-- The crater burst of `tick`, impact.js 559-562. -/
def tick.formCrater (S : Scene α) (s : AnimationState α) : AnimationState α :=
  if s.frame ≥ tick.craterStart && !s.craterFormed then
    { spawnCraterParticles S s with craterFormed := true }
  else s

/-- The update of the crater particles in `tick`, impact.js 569 and 607. -/
def tick.updateCrater (S : Scene α) (s : AnimationState α) : AnimationState α :=
  if tick.craterProgress s.frame > (0 : α) then updateCraterParticles S s else s

/-- The completion check of `tick`, impact.js 616-619. -/
def tick.complete (s : AnimationState α) : AnimationState α :=
  if tick.ex s.frame ≥ (1 : α) && !s.animationComplete then
    createRestartButton { s with animationComplete := true }
  else s

/-- `tick()`, impact.js 542-623, without the drawing calls and without the request for
the next frame. -/
def tick (S : Scene α) (s : AnimationState α) : AnimationState α :=
  let s :=
    if s.frame < travelTime then s
    else
      let s := tick.explode S s
      let s := tick.formCrater S s
      let s := { s with particles := updateParticles s.particles }
      let s := tick.updateCrater S s
      tick.complete s
  { s with frame := s.frame + 1 }

/-- The state after `n` ticks from the initial state, with no restart. -/
def run (S : Scene α) (n : ℕ) : AnimationState α := (tick S)^[n] initialState

end Animation

/-! ## The runtime over the real numbers -/

/-- The mathematical functions that `Math` approximates: a negative base with a
non-integral exponent and a negative radicand give NaN. -/
noncomputable def realMath : JSMath ℝ where
  pow x y := if x < 0 ∧ y ≠ ⌊y⌋ then none else some (x ^ y)
  sqrt x := if x < 0 then none else some (Real.sqrt x)
  PI := Real.pi
  sin := Real.sin
  cos := Real.cos

/-- A session for concrete runs: a 600 by 400 canvas, every `Math.random()` equal to 0.5,
and a metrics record with the values that mass 1000 t at 20 km/s on rock gives. The text
conversions are placeholders: no statement below reads a colour or an insight. -/
noncomputable def sampleScene : Scene ℝ where
  J := realMath
  T := ⟨fun _ => "", fun _ => ""⟩
  random := fun _ => 0.5
  W := 600
  H := 400
  metrics :=
    { mass_tons := some 1000
      velocity_kms := some 20
      energy_megatons_tnt := some 0.042
      crater_km := some 0.541
      air_km := some 105.265
      shock_km := some 87.721
      thermal_km := some 4.607
      severity := "Very Low"
      target_material := JSProp.own "Rock/Solid Ground" }

/-! ## Specification-side definitions -/

section Spec

variable {α : Type} [LinearOrderedField α] [FloorRing α]

/-- The energy in megatons of TNT as the specification writes it:
`0.5 * (mass_tons*1000) * (velocity_kms*1000)^2 * 2.1e-16`. -/
def energyMegatonsSpec (mass_tons velocity_kms : α) : α :=
  0.5 * (mass_tons * 1000) * (velocity_kms * 1000) ^ 2 * 2.1e-16

/-- A returned field is its unrounded value rounded to 3 decimals: both are numbers, the
field is `n/1000` for an integer `n`, and the two differ by at most 0.0005. -/
def IsRounded3 (unrounded field : Option α) : Prop :=
  ∃ (x : α) (n : ℤ), unrounded = some x ∧ field = some ((n : α) / 1000) ∧
    |(n : α) / 1000 - x| ≤ 0.0005

/-- The three effects that `generateInsights` compares, in the order air, shock,
thermal: the value of each after `|| 0`. -/
def effectValue (metrics : ImpactMetrics α) : Fin 3 → α
  | 0 => orZero metrics.air_km
  | 1 => orZero metrics.shock_km
  | 2 => orZero metrics.thermal_km

/-- The names of the three effects, in the order air, shock, thermal. -/
def effectName : Fin 3 → String
  | 0 => "Air blast radius"
  | 1 => "Shock wave radius"
  | 2 => "Thermal radiation radius"

end Spec

/-! ## Lemmas on calculations.js -/

section CalcLemmas

variable {α : Type}

theorem energyMegatonsTnt_eq_spec [LinearOrderedField α] (m v : α) :
    calculateAllMetrics.energyMegatonsTnt m v = energyMegatonsSpec m v := by
  simp only [calculateAllMetrics.energyMegatonsTnt, calculateAllMetrics.keJoules, kineticEnergy,
    calculateAllMetrics.mass, calculateAllMetrics.velocity, energyMegatonsSpec]
  ring

theorem energyMegatonsSpec_eq [LinearOrderedField α] (m v : α) :
    energyMegatonsSpec m v = m * v ^ 2 * (21 / 200000000) := by
  simp only [energyMegatonsSpec]
  norm_num
  ring

theorem severity_cases [LinearOrderedField α] (E : α) :
    (calculateAllMetrics.severity E = "Very Low" ↔ E < 0.1) ∧
    (calculateAllMetrics.severity E = "Low" ↔ 0.1 ≤ E ∧ E < 1) ∧
    (calculateAllMetrics.severity E = "Moderate" ↔ 1 ≤ E ∧ E < 10) ∧
    (calculateAllMetrics.severity E = "High" ↔ 10 ≤ E ∧ E < 100) ∧
    (calculateAllMetrics.severity E = "Extreme" ↔ 100 ≤ E) := by
  have e1 : (0.1 : α) = 1 / 10 := by norm_num
  unfold calculateAllMetrics.severity
  rw [e1]
  split_ifs with h1 h2 h3 h4 <;> refine ⟨?_, ?_, ?_, ?_, ?_⟩ <;> constructor <;> intro h <;>
    first
    | exact absurd h (by decide)
    | rfl
    | linarith
    | (constructor <;> linarith)

theorem getProp_undefined {β : Type} (obj : List (String × β)) (key : String)
    (h1 : obj.lookup key = none) (h2 : key ∉ objectPrototypeKeys) :
    getProp obj key = JSProp.undefined := by
  simp [getProp, h1, h2]

theorem lookup_five_none {β : Type} (a b c d e : β) (key : String)
    (h : key ∉ ["water", "rock", "ice", "sand", "forest"]) :
    List.lookup key [("water", a), ("rock", b), ("ice", c), ("sand", d), ("forest", e)] =
      none := by
  simp only [List.mem_cons, List.mem_singleton, not_or, List.not_mem_nil, or_false] at h
  obtain ⟨h1, h2, h3, h4, h5⟩ := h
  have e1 : (key == "water") = false := by simpa using h1
  have e2 : (key == "rock") = false := by simpa using h2
  have e3 : (key == "ice") = false := by simpa using h3
  have e4 : (key == "sand") = false := by simpa using h4
  have e5 : (key == "forest") = false := by simpa using h5
  simp [List.lookup, e1, e2, e3, e4, e5]

theorem craterDiameterKm_fallback [LinearOrderedField α] (J : JSMath α) (m v : α) (mat : String)
    (h1 : mat ∉ ["water", "rock", "ice", "sand", "forest"]) (h2 : mat ∉ objectPrototypeKeys) :
    craterDiameterKm J m v mat = craterDiameterKm J m v "rock" := by
  have hu : getProp (craterDiameterKm.materialProps : List (String × MaterialProfile α)) mat =
      JSProp.undefined :=
    getProp_undefined _ mat (lookup_five_none _ _ _ _ _ mat h1) h2
  simp only [craterDiameterKm, hu]
  rfl

theorem calculateAllMetrics_severity [LinearOrderedField α] [FloorRing α]
    (J : JSMath α) (m v : α) (mat : String) :
    (calculateAllMetrics J m v mat).severity =
      calculateAllMetrics.severity (energyMegatonsSpec m v) := by
  simp only [calculateAllMetrics, energyMegatonsTnt_eq_spec]

theorem calculateAllMetrics_energy [LinearOrderedField α] [FloorRing α]
    (J : JSMath α) (m v : α) (mat : String) :
    (calculateAllMetrics J m v mat).energy_megatons_tnt =
      some (round3 (energyMegatonsSpec m v)) := by
  simp only [calculateAllMetrics, energyMegatonsTnt_eq_spec]

theorem jsRound_eq [LinearOrderedField α] [FloorRing α]
    (x : α) (n : ℤ) (h1 : (n : α) ≤ x + 1 / 2) (h2 : x + 1 / 2 < n + 1) :
    jsRound x = n := by
  unfold jsRound
  rw [Int.floor_eq_iff.mpr ⟨h1, h2⟩]

theorem round3_spec [LinearOrderedField α] [FloorRing α] (x : α) :
    ∃ n : ℤ, round3 x = (n : α) / 1000 ∧ |(n : α) / 1000 - x| ≤ 0.0005 := by
  refine ⟨⌊x * 1000 + 1 / 2⌋, rfl, ?_⟩
  have h1 := Int.floor_le (x * 1000 + 1 / 2)
  have h2 := Int.lt_floor_add_one (x * 1000 + 1 / 2)
  rw [abs_le]
  constructor
  · norm_num
    linarith
  · norm_num
    linarith

theorem isRounded3_map [LinearOrderedField α] [FloorRing α]
    (x : α) : IsRounded3 (some x) ((some x).map round3) := by
  obtain ⟨n, h1, h2⟩ := round3_spec x
  exact ⟨x, n, rfl, by simp [h1], h2⟩

theorem round3_mono [LinearOrderedField α] [FloorRing α]
    {x y : α} (h : x ≤ y) : round3 x ≤ round3 y := by
  unfold round3 jsRound
  have h1 : ⌊x * 1000 + 1 / 2⌋ ≤ ⌊y * 1000 + 1 / 2⌋ := Int.floor_mono (by linarith)
  have h2 : ((⌊x * 1000 + 1 / 2⌋ : ℤ) : α) ≤ ((⌊y * 1000 + 1 / 2⌋ : ℤ) : α) := by
    exact_mod_cast h1
  linarith

/-- A string that is neither a key of the tables nor a property name of
`Object.prototype` resolves like "rock". -/
theorem unknown_material_falls_back [LinearOrderedField α] [FloorRing α]
    (J : JSMath α) (m v : α) (mat : String)
    (h1 : mat ∉ ["water", "rock", "ice", "sand", "forest"]) (h2 : mat ∉ objectPrototypeKeys) :
    craterDiameterKm J m v mat = craterDiameterKm J m v "rock" ∧
    calculateAllMetrics J m v mat = calculateAllMetrics J m v "rock" ∧
    (calculateAllMetrics J m v mat).target_material = JSProp.own "Rock/Solid Ground" := by
  have ht : getProp calculateAllMetrics.materialProps mat = JSProp.undefined :=
    getProp_undefined _ mat (lookup_five_none _ _ _ _ _ mat h1) h2
  refine ⟨craterDiameterKm_fallback J m v mat h1 h2, ?_, ?_⟩
  · simp only [calculateAllMetrics, craterDiameterKm_fallback J _ _ mat h1 h2, ht]
    rfl
  · simp only [calculateAllMetrics, ht]
    rfl

theorem generateInsights_second [LinearOrderedField α] (T : JSText α) (metrics : ImpactMetrics α) :
    (generateInsights T metrics)[1]? = some ((generateInsights.largest metrics).2 ++
      " is the largest zone here. Atmospheric pressure waves travel farther than intense heat, so blast/shock often extend beyond thermal effects.") := by
  simp [generateInsights]

theorem round3_lt_iff [LinearOrderedField α] [FloorRing α] (x : α) (k : ℤ) :
    round3 x < (k : α) / 1000 ↔ x < (k : α) / 1000 - 0.0005 := by
  unfold round3 jsRound
  rw [div_lt_div_iff_of_pos_right (by norm_num : (0 : α) < 1000), Int.cast_lt, Int.floor_lt]
  constructor
  · intro h; norm_num; linarith
  · intro h; norm_num at h; linarith

/-- The thresholds seen through the rounding: the rounded energy is below a threshold
exactly when the energy is below the threshold less 0.0005. -/
theorem round3_thresholds [LinearOrderedField α] [FloorRing α] (x : α) :
    (round3 x < 0.1 ↔ x < 0.0995) ∧ (round3 x < 1 ↔ x < 0.9995) ∧
    (round3 x < 10 ↔ x < 9.9995) ∧ (round3 x < 100 ↔ x < 99.9995) := by
  have h1 := round3_lt_iff x 100
  have h2 := round3_lt_iff x 1000
  have h3 := round3_lt_iff x 10000
  have h4 := round3_lt_iff x 100000
  norm_num at h1 h2 h3 h4 ⊢
  exact ⟨h1, h2, h3, h4⟩

theorem severity_round3_iff [LinearOrderedField α] [FloorRing α] (E : α) :
    calculateAllMetrics.severity (round3 E) = calculateAllMetrics.severity E ↔
      ¬ ((0.0995 ≤ E ∧ E < 0.1) ∨ (0.9995 ≤ E ∧ E < 1) ∨ (9.9995 ≤ E ∧ E < 10) ∨
        (99.9995 ≤ E ∧ E < 100)) := by
  obtain ⟨r1, r2, r3, r4⟩ := round3_thresholds E
  obtain ⟨s1, s2, s3, s4, s5⟩ := severity_cases E
  obtain ⟨t1, t2, t3, t4, t5⟩ := severity_cases (round3 E)
  have q2 : (0.1 : α) ≤ round3 E ↔ 0.0995 ≤ E := by rw [← not_lt, ← not_lt, r1]
  have q3 : (1 : α) ≤ round3 E ↔ 0.9995 ≤ E := by rw [← not_lt, ← not_lt, r2]
  have q4 : (10 : α) ≤ round3 E ↔ 9.9995 ≤ E := by rw [← not_lt, ← not_lt, r3]
  have q5 : (100 : α) ≤ round3 E ↔ 99.9995 ≤ E := by rw [← not_lt, ← not_lt, r4]
  rw [r1] at t1
  rw [q2, r2] at t2
  rw [q3, r3] at t3
  rw [q4, r4] at t4
  rw [q5] at t5
  have e1 : (0.1 : α) = 1 / 10 := by norm_num
  have e2 : (0.0995 : α) = 199 / 2000 := by norm_num
  have e3 : (0.9995 : α) = 1999 / 2000 := by norm_num
  have e4 : (9.9995 : α) = 19999 / 2000 := by norm_num
  have e5 : (99.9995 : α) = 199999 / 2000 := by norm_num
  rw [e1] at s1 s2
  rw [e2] at t1 t2
  rw [e3] at t2 t3
  rw [e4] at t3 t4
  rw [e5] at t4 t5
  rw [e1, e2, e3, e4, e5]
  have same : ∀ a : String, calculateAllMetrics.severity (round3 E) = a →
      calculateAllMetrics.severity E = a →
      ¬ ((199 / 2000 ≤ E ∧ E < 1 / 10) ∨ (1999 / 2000 ≤ E ∧ E < 1) ∨
        (19999 / 2000 ≤ E ∧ E < 10) ∨ (199999 / 2000 ≤ E ∧ E < 100)) →
      (calculateAllMetrics.severity (round3 E) = calculateAllMetrics.severity E ↔
        ¬ ((199 / 2000 ≤ E ∧ E < 1 / 10) ∨ (1999 / 2000 ≤ E ∧ E < 1) ∨
          (19999 / 2000 ≤ E ∧ E < 10) ∨ (199999 / 2000 ≤ E ∧ E < 100))) :=
    fun a ha hb hn => ⟨fun _ => hn, fun _ => ha.trans hb.symm⟩
  have differ : ∀ a b : String, a ≠ b → calculateAllMetrics.severity (round3 E) = a →
      calculateAllMetrics.severity E = b →
      ((199 / 2000 ≤ E ∧ E < 1 / 10) ∨ (1999 / 2000 ≤ E ∧ E < 1) ∨
        (19999 / 2000 ≤ E ∧ E < 10) ∨ (199999 / 2000 ≤ E ∧ E < 100)) →
      (calculateAllMetrics.severity (round3 E) = calculateAllMetrics.severity E ↔
        ¬ ((199 / 2000 ≤ E ∧ E < 1 / 10) ∨ (1999 / 2000 ≤ E ∧ E < 1) ∨
          (19999 / 2000 ≤ E ∧ E < 10) ∨ (199999 / 2000 ≤ E ∧ E < 100))) :=
    fun a b hab ha hb hd =>
      ⟨fun h => absurd (ha.symm.trans (h.trans hb)) hab, fun h => absurd hd h⟩
  rcases lt_or_le E (199 / 2000) with h | h
  · exact same "Very Low" (t1.mpr h) (s1.mpr (by linarith))
      (by rintro (⟨a, b⟩ | ⟨a, b⟩ | ⟨a, b⟩ | ⟨a, b⟩) <;> linarith)
  rcases lt_or_le E (1 / 10) with h1 | h1
  · exact differ "Low" "Very Low" (by decide) (t2.mpr ⟨h, by linarith⟩) (s1.mpr h1)
      (Or.inl ⟨h, h1⟩)
  rcases lt_or_le E (1999 / 2000) with h2 | h2
  · exact same "Low" (t2.mpr ⟨h, h2⟩) (s2.mpr ⟨h1, by linarith⟩)
      (by rintro (⟨a, b⟩ | ⟨a, b⟩ | ⟨a, b⟩ | ⟨a, b⟩) <;> linarith)
  rcases lt_or_le E 1 with h3 | h3
  · exact differ "Moderate" "Low" (by decide) (t3.mpr ⟨h2, by linarith⟩) (s2.mpr ⟨h1, h3⟩)
      (Or.inr (Or.inl ⟨h2, h3⟩))
  rcases lt_or_le E (19999 / 2000) with h4 | h4
  · exact same "Moderate" (t3.mpr ⟨h2, h4⟩) (s3.mpr ⟨h3, by linarith⟩)
      (by rintro (⟨a, b⟩ | ⟨a, b⟩ | ⟨a, b⟩ | ⟨a, b⟩) <;> linarith)
  rcases lt_or_le E 10 with h5 | h5
  · exact differ "High" "Moderate" (by decide) (t4.mpr ⟨h4, by linarith⟩) (s3.mpr ⟨h3, h5⟩)
      (Or.inr (Or.inr (Or.inl ⟨h4, h5⟩)))
  rcases lt_or_le E (199999 / 2000) with h6 | h6
  · exact same "High" (t4.mpr ⟨h4, h6⟩) (s4.mpr ⟨h5, by linarith⟩)
      (by rintro (⟨a, b⟩ | ⟨a, b⟩ | ⟨a, b⟩ | ⟨a, b⟩) <;> linarith)
  rcases lt_or_le E 100 with h7 | h7
  · exact differ "Extreme" "High" (by decide) (t5.mpr h6) (s4.mpr ⟨h5, h7⟩)
      (Or.inr (Or.inr (Or.inr ⟨h6, h7⟩)))
  · exact same "Extreme" (t5.mpr h6) (s5.mpr h7)
      (by rintro (⟨a, b⟩ | ⟨a, b⟩ | ⟨a, b⟩ | ⟨a, b⟩) <;> linarith)

end CalcLemmas

/-! ## Lemmas over the reals -/

theorem realMath_pow_of_nonneg (x y : ℝ) (hx : 0 ≤ x) : realMath.pow x y = some (x ^ y) := by
  simp [realMath, not_lt.mpr hx]

theorem realMath_sqrt_of_nonneg (x : ℝ) (hx : 0 ≤ x) :
    realMath.sqrt x = some (Real.sqrt x) := by
  simp [realMath, not_lt.mpr hx]

theorem kineticEnergy_nonneg (m v : ℝ) (hm : 0 ≤ m) : 0 ≤ kineticEnergy m v := by
  unfold kineticEnergy
  have h : 0 ≤ v * v := mul_self_nonneg v
  have e : (0.5 : ℝ) * m * v * v = 0.5 * m * (v * v) := by ring
  rw [e]
  positivity

theorem kineticEnergy_pos (m v : ℝ) (hm : 0 < m) (hv : v ≠ 0) : 0 < kineticEnergy m v := by
  unfold kineticEnergy
  have h : 0 < v * v := mul_self_pos.mpr hv
  have e : (0.5 : ℝ) * m * v * v = 0.5 * m * (v * v) := by ring
  rw [e]
  positivity

/-- The crater diameter on a key of the table, over the reals. -/
theorem craterDiameterKm_own (m v : ℝ) (hm : 0 ≤ m) (mat : String) (p : MaterialProfile ℝ)
    (hp : getProp craterDiameterKm.materialProps mat = JSProp.own p)
    (hg : 0 < p.gravity * p.density) :
    craterDiameterKm realMath m v mat =
      some (p.k * (kineticEnergy m v / (p.gravity * p.density)) ^ (0.25 : ℝ) / 1000) := by
  simp only [craterDiameterKm, hp, JSProp.or]
  rw [realMath_pow_of_nonneg _ _ (div_nonneg (kineticEnergy_nonneg m v hm) hg.le)]
  rfl

theorem craterDiameterKm_real_isSome (m v : ℝ) (hm : 0 ≤ m) (mat : String)
    (h : mat ∉ objectPrototypeKeys) : ∃ c, craterDiameterKm realMath m v mat = some c := by
  by_cases hw : mat = "water"
  · subst hw; exact ⟨_, craterDiameterKm_own m v hm _ _ rfl (by norm_num)⟩
  by_cases hr : mat = "rock"
  · subst hr; exact ⟨_, craterDiameterKm_own m v hm _ _ rfl (by norm_num)⟩
  by_cases hi : mat = "ice"
  · subst hi; exact ⟨_, craterDiameterKm_own m v hm _ _ rfl (by norm_num)⟩
  by_cases hs : mat = "sand"
  · subst hs; exact ⟨_, craterDiameterKm_own m v hm _ _ rfl (by norm_num)⟩
  by_cases hf : mat = "forest"
  · subst hf; exact ⟨_, craterDiameterKm_own m v hm _ _ rfl (by norm_num)⟩
  rw [craterDiameterKm_fallback realMath m v mat (by simp [hw, hr, hi, hs, hf]) h]
  exact ⟨_, craterDiameterKm_own m v hm _ _ rfl (by norm_num)⟩

theorem scaled_root_lt (k1 k2 r1 r2 x : ℝ) (hk2 : 0 < k2) (hr1 : 0 < r1)
    (hr2 : 0 < r2) (hx : 0 < x) (h : k1 ^ 4 * r2 < k2 ^ 4 * r1) :
    k1 * (x / r1) ^ (0.25 : ℝ) / 1000 < k2 * (x / r2) ^ (0.25 : ℝ) / 1000 := by
  have e : (0.25 : ℝ) = ((4 : ℕ) : ℝ)⁻¹ := by norm_num
  have ha : ((x / r1) ^ (0.25 : ℝ)) ^ 4 = x / r1 := by
    rw [e]; exact Real.rpow_inv_natCast_pow (by positivity) (by norm_num)
  have hb : ((x / r2) ^ (0.25 : ℝ)) ^ 4 = x / r2 := by
    rw [e]; exact Real.rpow_inv_natCast_pow (by positivity) (by norm_num)
  have ha0 : 0 ≤ (x / r1) ^ (0.25 : ℝ) := Real.rpow_nonneg (by positivity) _
  have hb0 : 0 ≤ (x / r2) ^ (0.25 : ℝ) := Real.rpow_nonneg (by positivity) _
  have key : k1 * (x / r1) ^ (0.25 : ℝ) < k2 * (x / r2) ^ (0.25 : ℝ) := by
    apply lt_of_pow_lt_pow_left₀ 4 (by positivity)
    rw [mul_pow, mul_pow, ha, hb, ← sub_pos]
    have e2 : k2 ^ 4 * (x / r2) - k1 ^ 4 * (x / r1) =
        x * (k2 ^ 4 * r1 - k1 ^ 4 * r2) / (r1 * r2) := by
      field_simp; ring
    rw [e2]
    have h3 : 0 < k2 ^ 4 * r1 - k1 ^ 4 * r2 := by linarith
    positivity
  linarith

/-- Two keys of the table with the same gravity: the smaller `k^4 / density` has the
smaller crater. -/
theorem craterDiameterKm_lt (m v : ℝ) (hm : 0 < m) (hv : v ≠ 0) (a b : String)
    (p q : MaterialProfile ℝ)
    (hp : getProp craterDiameterKm.materialProps a = JSProp.own p)
    (hq : getProp craterDiameterKm.materialProps b = JSProp.own q)
    (hg : q.gravity = p.gravity) (hg0 : 0 < p.gravity)
    (hqk : 0 < q.k) (hpd : 0 < p.density) (hqd : 0 < q.density)
    (h : p.k ^ 4 * q.density < q.k ^ 4 * p.density) :
    ∃ ca cb, craterDiameterKm realMath m v a = some ca ∧
      craterDiameterKm realMath m v b = some cb ∧ ca < cb := by
  refine ⟨_, _, craterDiameterKm_own m v hm.le a p hp (by positivity),
    craterDiameterKm_own m v hm.le b q hq (by rw [hg]; positivity), ?_⟩
  rw [hg]
  have hke := kineticEnergy_pos m v hm hv
  have e1 : kineticEnergy m v / (p.gravity * p.density) =
      (kineticEnergy m v / p.gravity) / p.density := by field_simp
  have e2 : kineticEnergy m v / (p.gravity * q.density) =
      (kineticEnergy m v / p.gravity) / q.density := by field_simp
  rw [e1, e2]
  exact scaled_root_lt _ _ _ _ _ hqk hpd hqd (by positivity) h


/-! ## Lemmas on impact.js -/

section AnimLemmas

variable {α : Type}

theorem spawnParticles_fold [LinearOrderedField α] [FloorRing α]
    (S : Scene α) (l : List ℕ) (s : AnimationState α) :
    (l.foldl (spawnParticles.body S) s).particles.length = s.particles.length + l.length ∧
    (l.foldl (spawnParticles.body S) s).exploded = s.exploded ∧
    (l.foldl (spawnParticles.body S) s).frame = s.frame := by
  induction l generalizing s with
  | nil => simp
  | cons i l ih =>
    simp only [List.foldl_cons, List.length_cons]
    obtain ⟨h1, h2, h3⟩ := ih (spawnParticles.body S s i)
    rw [h1, h2, h3]
    simp [spawnParticles.body]
    omega

theorem spawnParticles_length [LinearOrderedField α] [FloorRing α]
    (S : Scene α) (n : ℕ) (s : AnimationState α) :
    (spawnParticles S n s).particles.length = s.particles.length + n := by
  simpa [spawnParticles] using (spawnParticles_fold S (List.range n) s).1

theorem spawnParticles_frame [LinearOrderedField α] [FloorRing α]
    (S : Scene α) (n : ℕ) (s : AnimationState α) :
    (spawnParticles S n s).frame = s.frame :=
  (spawnParticles_fold S (List.range n) s).2.2

theorem spawnCraterParticles_fold [LinearOrderedField α] [FloorRing α]
    (S : Scene α) (l : List ℕ) (s : AnimationState α) :
    (l.foldl (spawnCraterParticles.body S) s).particles = s.particles ∧
    (l.foldl (spawnCraterParticles.body S) s).exploded = s.exploded ∧
    (l.foldl (spawnCraterParticles.body S) s).frame = s.frame := by
  induction l generalizing s with
  | nil => simp
  | cons i l ih =>
    simp only [List.foldl_cons]
    obtain ⟨h1, h2, h3⟩ := ih (spawnCraterParticles.body S s i)
    rw [h1, h2, h3]
    simp [spawnCraterParticles.body]

theorem updateParticles_length [LinearOrderedField α] (l : List (Particle α)) :
    (updateParticles l).length ≤ l.length := by
  induction l with
  | nil => simp [updateParticles]
  | cons p l ih =>
    simp only [updateParticles, List.foldr_cons, List.length_cons] at ih ⊢
    split_ifs
    · omega
    · simp only [List.length_cons]; omega

theorem explode_frame [LinearOrderedField α] [FloorRing α] (S : Scene α) (s : AnimationState α) :
    (tick.explode S s).frame = s.frame := by
  unfold tick.explode
  split_ifs
  · simp only [spawnParticles_frame]
  · rfl

theorem formCrater_keeps [LinearOrderedField α] [FloorRing α] (S : Scene α) (s : AnimationState α) :
    (tick.formCrater S s).particles = s.particles ∧
    (tick.formCrater S s).exploded = s.exploded ∧
    (tick.formCrater S s).frame = s.frame := by
  unfold tick.formCrater
  split_ifs
  · simp only [spawnCraterParticles, spawnCraterParticles_fold, and_self]
  · exact ⟨rfl, rfl, rfl⟩

theorem updateCrater_keeps [LinearOrderedField α] (S : Scene α) (s : AnimationState α) :
    (tick.updateCrater S s).particles = s.particles ∧
    (tick.updateCrater S s).exploded = s.exploded ∧
    (tick.updateCrater S s).frame = s.frame := by
  unfold tick.updateCrater
  split_ifs
  · exact ⟨rfl, rfl, rfl⟩
  · exact ⟨rfl, rfl, rfl⟩

theorem complete_keeps [LinearOrderedField α] (s : AnimationState α) :
    (tick.complete s).particles = s.particles ∧
    (tick.complete s).exploded = s.exploded ∧
    (tick.complete s).frame = s.frame := by
  unfold tick.complete createRestartButton
  split_ifs <;> exact ⟨rfl, rfl, rfl⟩

theorem tick_frame [LinearOrderedField α] [FloorRing α]
    (S : Scene α) (s : AnimationState α) : (tick S s).frame = s.frame + 1 := by
  simp only [tick]
  split_ifs
  · rfl
  · rw [(complete_keeps _).2.2, (updateCrater_keeps S _).2.2]
    simp only
    rw [(formCrater_keeps S _).2.2, explode_frame]

theorem tick_flight [LinearOrderedField α] [FloorRing α]
    (S : Scene α) (s : AnimationState α) (h : s.frame < travelTime) :
    (tick S s).particles = s.particles ∧ (tick S s).exploded = s.exploded := by
  simp only [tick, if_pos h, and_self]

theorem tick_impact [LinearOrderedField α] [FloorRing α]
    (S : Scene α) (s : AnimationState α) (h : ¬ s.frame < travelTime) :
    (tick S s).particles = updateParticles (tick.explode S s).particles ∧
    (tick S s).exploded = (tick.explode S s).exploded := by
  simp only [tick, if_neg h]
  rw [(complete_keeps _).1, (updateCrater_keeps S _).1, (complete_keeps _).2.1,
    (updateCrater_keeps S _).2.1]
  simp only
  rw [(formCrater_keeps S _).1, (formCrater_keeps S _).2.1]
  exact ⟨rfl, rfl⟩

theorem run_succ [LinearOrderedField α] [FloorRing α]
    (S : Scene α) (n : ℕ) : run S (n + 1) = tick S (run S n) :=
  Function.iterate_succ_apply' _ _ _

theorem run_frame [LinearOrderedField α] [FloorRing α]
    (S : Scene α) (n : ℕ) : (run S n).frame = n := by
  induction n with
  | zero => rfl
  | succ n ih => rw [run_succ, tick_frame, ih]

theorem run_flight [LinearOrderedField α] [FloorRing α] (S : Scene α) (n : ℕ) (h : n ≤ 90) :
    (run S n).particles = [] ∧ (run S n).exploded = false := by
  induction n with
  | zero => exact ⟨rfl, rfl⟩
  | succ n ih =>
    have hn : (run S n).frame < travelTime := by rw [run_frame]; unfold travelTime; omega
    rw [run_succ, (tick_flight S _ hn).1, (tick_flight S _ hn).2]
    exact ih (by omega)

theorem run_exploded [LinearOrderedField α] [FloorRing α]
    (S : Scene α) (k : ℕ) : (run S (91 + k)).exploded = true := by
  induction k with
  | zero =>
    have hn : ¬ (run S 90).frame < travelTime := by rw [run_frame]; unfold travelTime; omega
    rw [show 91 + 0 = 90 + 1 from rfl, run_succ, (tick_impact S _ hn).2]
    simp [tick.explode, (run_flight S 90 le_rfl).2]
  | succ k ih =>
    have hn : ¬ (run S (91 + k)).frame < travelTime := by
      rw [run_frame]; unfold travelTime; omega
    rw [show 91 + (k + 1) = (91 + k) + 1 from rfl, run_succ, (tick_impact S _ hn).2]
    simp [tick.explode, ih]

theorem spawnParticles_fold_crater [LinearOrderedField α] [FloorRing α]
    (S : Scene α) (l : List ℕ) (s : AnimationState α) :
    (l.foldl (spawnParticles.body S) s).craterParticles = s.craterParticles ∧
    (l.foldl (spawnParticles.body S) s).craterFormed = s.craterFormed := by
  induction l generalizing s with
  | nil => simp
  | cons i l ih =>
    simp only [List.foldl_cons]
    obtain ⟨h1, h2⟩ := ih (spawnParticles.body S s i)
    rw [h1, h2]
    simp [spawnParticles.body]

theorem explode_crater [LinearOrderedField α] [FloorRing α] (S : Scene α) (s : AnimationState α) :
    (tick.explode S s).craterParticles = s.craterParticles ∧
    (tick.explode S s).craterFormed = s.craterFormed := by
  unfold tick.explode
  split_ifs
  · simp only [spawnParticles, spawnParticles_fold_crater, and_self]
  · exact ⟨rfl, rfl⟩

theorem spawnCraterParticles_fold_crater [LinearOrderedField α] [FloorRing α]
    (S : Scene α) (l : List ℕ) (s : AnimationState α) :
    (l.foldl (spawnCraterParticles.body S) s).craterParticles.length =
      s.craterParticles.length + l.length := by
  induction l generalizing s with
  | nil => simp
  | cons i l ih =>
    simp only [List.foldl_cons, List.length_cons]
    rw [ih (spawnCraterParticles.body S s i)]
    simp [spawnCraterParticles.body]
    omega

theorem spawnCraterParticles_length [LinearOrderedField α] [FloorRing α]
    (S : Scene α) (s : AnimationState α) :
    (spawnCraterParticles S s).craterParticles.length =
      s.craterParticles.length + spawnCraterParticles.numParticles S := by
  simpa [spawnCraterParticles] using
    spawnCraterParticles_fold_crater S (List.range (spawnCraterParticles.numParticles S)) s

theorem updateCraterParticles_cons [LinearOrderedField α]
    (S : Scene α) (s : AnimationState α) (p : CraterParticle α) (l : List (CraterParticle α)) :
    (updateCraterParticles S { s with craterParticles := p :: l }).craterParticles =
      if (updateCraterParticles.move p (S.random
          (updateCraterParticles S { s with craterParticles := l }).draws)).life ≤ 0 then
        (updateCraterParticles S { s with craterParticles := l }).craterParticles
      else
        updateCraterParticles.move p (S.random
          (updateCraterParticles S { s with craterParticles := l }).draws) ::
          (updateCraterParticles S { s with craterParticles := l }).craterParticles := by
  simp only [updateCraterParticles, List.foldr_cons]
  split_ifs <;> rfl

/-- What `updateCraterParticles` leaves: the particles whose life was above 1, in their
order, each moved once. -/
theorem updateCraterParticles_spec [LinearOrderedField α]
    (S : Scene α) (s : AnimationState α) :
    List.Forall₂ (fun p q => ∃ r, q = updateCraterParticles.move p r)
      (s.craterParticles.filter (fun p => 1 < p.life))
      (updateCraterParticles S s).craterParticles := by
  have key : ∀ l : List (CraterParticle α),
      List.Forall₂ (fun p q => ∃ r, q = updateCraterParticles.move p r)
        (l.filter (fun p => 1 < p.life))
        (updateCraterParticles S { s with craterParticles := l }).craterParticles := by
    intro l
    induction l with
    | nil => exact List.Forall₂.nil
    | cons p l ih =>
      rw [updateCraterParticles_cons]
      have hl : ∀ r, (updateCraterParticles.move p r).life = p.life - 1 := fun r => rfl
      by_cases hp : 1 < p.life
      · rw [List.filter_cons_of_pos (by simpa using hp), if_neg (by rw [hl]; linarith)]
        exact List.Forall₂.cons ⟨_, rfl⟩ ih
      · rw [List.filter_cons_of_neg (by simpa using hp), if_pos (by rw [hl]; linarith)]
        exact ih
  exact key s.craterParticles

theorem updateCraterParticles_length [LinearOrderedField α]
    (S : Scene α) (s : AnimationState α) :
    (updateCraterParticles S s).craterParticles.length ≤ s.craterParticles.length := by
  rw [← (updateCraterParticles_spec S s).length_eq]
  exact List.length_filter_le _ _

theorem formCrater_formed [LinearOrderedField α] [FloorRing α]
    (S : Scene α) (s : AnimationState α) (h : s.craterFormed = true) :
    tick.formCrater S s = s := by
  simp [tick.formCrater, h]

theorem formCrater_fire [LinearOrderedField α] [FloorRing α]
    (S : Scene α) (s : AnimationState α) (hf : tick.craterStart ≤ s.frame)
    (h : s.craterFormed = false) :
    tick.formCrater S s = { spawnCraterParticles S s with craterFormed := true } := by
  simp [tick.formCrater, h, hf]

theorem updateCrater_crater [LinearOrderedField α] (S : Scene α) (s : AnimationState α) :
    (tick.updateCrater S s).craterFormed = s.craterFormed ∧
    (tick.updateCrater S s).craterParticles.length ≤ s.craterParticles.length := by
  unfold tick.updateCrater
  split_ifs
  · exact ⟨rfl, updateCraterParticles_length S s⟩
  · exact ⟨rfl, le_rfl⟩

theorem updateCrater_at_start [LinearOrderedField α] (S : Scene α) (s : AnimationState α)
    (h : s.frame = tick.craterStart) : tick.updateCrater S s = s := by
  simp [tick.updateCrater, tick.craterProgress, h]

theorem complete_crater [LinearOrderedField α] (s : AnimationState α) :
    (tick.complete s).craterParticles = s.craterParticles ∧
    (tick.complete s).craterFormed = s.craterFormed := by
  unfold tick.complete createRestartButton
  split_ifs <;> exact ⟨rfl, rfl⟩

theorem tick_flight_crater [LinearOrderedField α] [FloorRing α]
    (S : Scene α) (s : AnimationState α) (h : s.frame < travelTime) :
    (tick S s).craterParticles = s.craterParticles ∧
    (tick S s).craterFormed = s.craterFormed := by
  simp only [tick, if_pos h, and_self]

/-- The tick at frame `craterStart` = 90 of a state whose crater has not formed. -/
theorem tick_crater_fire [LinearOrderedField α] [FloorRing α]
    (S : Scene α) (s : AnimationState α) (hf : s.frame = 90) (h : s.craterFormed = false) :
    (tick S s).craterFormed = true ∧
    (tick S s).craterParticles =
      (spawnCraterParticles S (tick.explode S s)).craterParticles := by
  have hn : ¬ s.frame < travelTime := by rw [hf]; unfold travelTime; omega
  have h1 : (tick.explode S s).craterFormed = false := by rw [(explode_crater S s).2, h]
  have h2 : tick.craterStart ≤ (tick.explode S s).frame := by
    rw [explode_frame, hf]; exact le_rfl
  simp only [tick, if_neg hn]
  rw [(complete_crater _).1, (complete_crater _).2, formCrater_fire S _ h2 h1,
    updateCrater_at_start S _ (by simp only [spawnCraterParticles,
      (spawnCraterParticles_fold S _ _).2.2, explode_frame, hf]; rfl)]
  exact ⟨rfl, rfl⟩

/-- A tick of the impact phase on a state whose crater has formed. -/
theorem tick_crater_formed [LinearOrderedField α] [FloorRing α]
    (S : Scene α) (s : AnimationState α) (hn : ¬ s.frame < travelTime)
    (h : s.craterFormed = true) :
    (tick S s).craterFormed = true ∧
    (tick S s).craterParticles.length ≤ s.craterParticles.length := by
  have h1 : (tick.explode S s).craterFormed = true := by rw [(explode_crater S s).2, h]
  simp only [tick, if_neg hn]
  rw [(complete_crater _).1, (complete_crater _).2, formCrater_formed S _ h1]
  refine ⟨?_, ?_⟩
  · rw [(updateCrater_crater S _).1]; exact h1
  · refine le_trans (updateCrater_crater S _).2 ?_
    simp only [(explode_crater S s).1, le_refl]

theorem run_flight_crater [LinearOrderedField α] [FloorRing α]
    (S : Scene α) (n : ℕ) (h : n ≤ 90) :
    (run S n).craterParticles = [] ∧ (run S n).craterFormed = false := by
  induction n with
  | zero => exact ⟨rfl, rfl⟩
  | succ n ih =>
    have hn : (run S n).frame < travelTime := by rw [run_frame]; unfold travelTime; omega
    rw [run_succ, (tick_flight_crater S _ hn).1, (tick_flight_crater S _ hn).2]
    exact ih (by omega)

theorem run_craterFormed [LinearOrderedField α] [FloorRing α]
    (S : Scene α) (k : ℕ) : (run S (91 + k)).craterFormed = true := by
  induction k with
  | zero =>
    rw [show 91 + 0 = 90 + 1 from rfl, run_succ]
    exact (tick_crater_fire S _ (run_frame S 90) (run_flight_crater S 90 le_rfl).2).1
  | succ k ih =>
    have hn : ¬ (run S (91 + k)).frame < travelTime := by
      rw [run_frame]; unfold travelTime; omega
    rw [show 91 + (k + 1) = (91 + k) + 1 from rfl, run_succ]
    exact (tick_crater_formed S _ hn ih).1

theorem updateParticles_spec [LinearOrderedField α] (l : List (Particle α)) :
    updateParticles l = (l.filter (fun p => 1 < p.life)).map updateParticles.move := by
  induction l with
  | nil => rfl
  | cons p l ih =>
    have hl : (updateParticles.move p).life = p.life - 1 := rfl
    have hc : updateParticles (p :: l) =
        if (updateParticles.move p).life ≤ 0 then updateParticles l
        else updateParticles.move p :: updateParticles l := rfl
    rw [hc, ih]
    by_cases hp : 1 < p.life
    · rw [List.filter_cons_of_pos (by simpa using hp), if_neg (by rw [hl]; linarith)]
      rfl
    · rw [List.filter_cons_of_neg (by simpa using hp), if_pos (by rw [hl]; linarith)]

theorem maxEffectKm_pos [LinearOrderedField α] [FloorRing α] (S : Scene α) :
    0 < maxEffectKm S :=
  lt_of_lt_of_le one_pos (le_max_left _ _)

theorem eased_pos [LinearOrderedField α] (e : α) (h0 : 0 < e) (h1 : e ≤ 1) :
    0 < 1 - (1 - e) ^ 3 := by
  have h2 : (1 - e) ^ 3 < 1 := pow_lt_one₀ (by linarith) (by linarith) (by norm_num)
  linarith

/-- What `drawRings` draws is the ring's kilometres times a factor common to the rings. -/
theorem finalR_eq [LinearOrderedField α] [FloorRing α] (S : Scene α) (e km : α) :
    drawRings.finalR S e km = km * drawRings.finalR S e 1 := by
  simp only [drawRings.finalR, kmToPx]
  ring

theorem finalR_one_ne_zero [LinearOrderedField α] [FloorRing α] (S : Scene α) (e : α)
    (hV : maxVisualRadius S ≠ 0) (hsin : ∀ x, -1 ≤ S.J.sin x ∧ S.J.sin x ≤ 1)
    (h0 : 0 < e) (h1 : e ≤ 1) : drawRings.finalR S e 1 ≠ 0 := by
  simp only [drawRings.finalR, kmToPx]
  have hM := (maxEffectKm_pos S).ne'
  have hE := (eased_pos e h0 h1).ne'
  have hP : (if e ≥ 0.95 then 1 + S.J.sin ((e - 0.95) * 20 * S.J.PI * 4) * 0.1 else 1) ≠ 0 := by
    split_ifs
    · have := (hsin ((e - 0.95) * 20 * S.J.PI * 4)).1
      have h3 : (0 : α) < 1 + S.J.sin ((e - 0.95) * 20 * S.J.PI * 4) * 0.1 := by
        norm_num; linarith
      exact h3.ne'
    · exact one_ne_zero
  exact mul_ne_zero (mul_ne_zero (mul_ne_zero (div_ne_zero one_ne_zero hM) hV) hE) hP

theorem maxVisualRadius_pos [LinearOrderedField α] [FloorRing α] (S : Scene α)
    (hW : 0 < S.W) (hH : 1 ≤ S.H) : 0 < maxVisualRadius S := by
  have hg : (1 : α) ≤ groundY S := by
    unfold groundY jsRound
    have : (1 : ℤ) ≤ ⌊S.H * 0.75 + 1 / 2⌋ :=
      Int.le_floor.mpr (by push_cast; norm_num; linarith)
    exact_mod_cast this
  unfold maxVisualRadius
  have : 0 < min S.W (groundY S) := lt_min hW (by linarith)
  have h2 : (0 : α) < 0.45 := by norm_num
  positivity

theorem sampleScene_sin (x : ℝ) : -1 ≤ sampleScene.J.sin x ∧ sampleScene.J.sin x ≤ 1 :=
  ⟨Real.neg_one_le_sin x, Real.sin_le_one x⟩

end AnimLemmas

/-! ## The claims -/

section Claims

variable {α : Type}

/-- C1: with `E` the energy in megatons as the specification writes it,
`calculateAllMetrics` returns severity "Very Low" exactly when `E < 0.1`, "Low" exactly
when `0.1 ≤ E < 1`, "Moderate" exactly when `1 ≤ E < 10`, "High" exactly when
`10 ≤ E < 100` and "Extreme" exactly when `E ≥ 100`; the energies 0.1, 1, 10 and 100
classify as Low, Moderate, High and Extreme. -/
theorem C1_severity_thresholds [LinearOrderedField α] [FloorRing α]
    (J : JSMath α) (mass_tons velocity_kms : α)
    (target_material : String) :
    ((calculateAllMetrics J mass_tons velocity_kms target_material).severity = "Very Low" ↔
      energyMegatonsSpec mass_tons velocity_kms < 0.1) ∧
    ((calculateAllMetrics J mass_tons velocity_kms target_material).severity = "Low" ↔
      0.1 ≤ energyMegatonsSpec mass_tons velocity_kms ∧
        energyMegatonsSpec mass_tons velocity_kms < 1) ∧
    ((calculateAllMetrics J mass_tons velocity_kms target_material).severity = "Moderate" ↔
      1 ≤ energyMegatonsSpec mass_tons velocity_kms ∧
        energyMegatonsSpec mass_tons velocity_kms < 10) ∧
    ((calculateAllMetrics J mass_tons velocity_kms target_material).severity = "High" ↔
      10 ≤ energyMegatonsSpec mass_tons velocity_kms ∧
        energyMegatonsSpec mass_tons velocity_kms < 100) ∧
    ((calculateAllMetrics J mass_tons velocity_kms target_material).severity = "Extreme" ↔
      100 ≤ energyMegatonsSpec mass_tons velocity_kms) ∧
    calculateAllMetrics.severity (0.1 : α) = "Low" ∧
    calculateAllMetrics.severity (1 : α) = "Moderate" ∧
    calculateAllMetrics.severity (10 : α) = "High" ∧
    calculateAllMetrics.severity (100 : α) = "Extreme" := by
  rw [calculateAllMetrics_severity]
  obtain ⟨h1, h2, h3, h4, h5⟩ := severity_cases (energyMegatonsSpec mass_tons velocity_kms)
  refine ⟨h1, h2, h3, h4, h5, ?_, ?_, ?_, ?_⟩
  · rw [(severity_cases _).2.1]; norm_num
  · rw [(severity_cases _).2.2.1]; norm_num
  · rw [(severity_cases _).2.2.2.1]; norm_num
  · rw [(severity_cases _).2.2.2.2]

/-- C2, as the claim states it, fails: `calculateAllMetrics(1000, 20, "rock")` returns
the energy 0.042 megatons, which is not within 0.5 of 42, and the severity "Very Low",
not "High". -/
theorem C2_counterexample :
    (calculateAllMetrics realMath 1000 20 "rock").energy_megatons_tnt = some 0.042 ∧
    ¬ (|(0.042 : ℝ) - 42| ≤ 0.5) ∧
    (calculateAllMetrics realMath 1000 20 "rock").severity = "Very Low" ∧
    (calculateAllMetrics realMath 1000 20 "rock").severity ≠ "High" := by
  have hs : (calculateAllMetrics realMath 1000 20 "rock").severity = "Very Low" := by
    rw [calculateAllMetrics_severity, (severity_cases _).1, energyMegatonsSpec_eq]; norm_num
  refine ⟨?_, ?_, hs, ?_⟩
  · rw [calculateAllMetrics_energy, energyMegatonsSpec_eq, round3, jsRound_eq _ 42] <;> norm_num
  · rw [abs_le]; norm_num
  · rw [hs]; decide

/-- C2, amended: `calculateAllMetrics(1000, 20, "rock")` converts to mass 1,000,000 kg and
velocity 20,000 m/s, has kinetic energy 2*10^14 J, returns `energy_megatons_tnt` 0.042
and returns severity "Very Low". -/
theorem C2_example [LinearOrderedField α] [FloorRing α] (J : JSMath α) :
    calculateAllMetrics.mass (1000 : α) = 1000000 ∧
    calculateAllMetrics.velocity (20 : α) = 20000 ∧
    calculateAllMetrics.keJoules (1000 : α) 20 = 2 * 10 ^ 14 ∧
    (calculateAllMetrics J 1000 20 "rock").energy_megatons_tnt = some 0.042 ∧
    (calculateAllMetrics J 1000 20 "rock").severity = "Very Low" := by
  refine ⟨?_, ?_, ?_, ?_, ?_⟩
  · simp only [calculateAllMetrics.mass]; norm_num
  · simp only [calculateAllMetrics.velocity]; norm_num
  · simp only [calculateAllMetrics.keJoules, calculateAllMetrics.mass,
      calculateAllMetrics.velocity, kineticEnergy]; norm_num
  · rw [calculateAllMetrics_energy, energyMegatonsSpec_eq, round3, jsRound_eq _ 42] <;> norm_num
  · rw [calculateAllMetrics_severity, (severity_cases _).1, energyMegatonsSpec_eq]; norm_num

/-- C3 at the failing input: "toString" is none of the five materials, yet
`craterDiameterKm(1000000, 20000, "toString")` is NaN while the crater for "rock" is a
number, and `calculateAllMetrics(1000, 20, "toString")` returns NaN as `crater_km` and the
inherited function as `target_material`, where "rock" gives a number and
"Rock/Solid Ground". -/
theorem C3_inherited_key_not_rock :
    "toString" ∉ ["water", "rock", "ice", "sand", "forest"] ∧
    craterDiameterKm realMath 1000000 20000 "toString" = none ∧
    (∃ c : ℝ, craterDiameterKm realMath 1000000 20000 "rock" = some c) ∧
    (calculateAllMetrics realMath 1000 20 "toString").crater_km = none ∧
    (∃ c : ℝ, (calculateAllMetrics realMath 1000 20 "rock").crater_km = some c) ∧
    (calculateAllMetrics realMath 1000 20 "toString").target_material =
      JSProp.inherited "toString" ∧
    (calculateAllMetrics realMath 1000 20 "rock").target_material =
      JSProp.own "Rock/Solid Ground" := by
  refine ⟨by decide, rfl, ?_, rfl, ?_, rfl, rfl⟩
  · exact craterDiameterKm_real_isSome _ _ (by norm_num) "rock" (by decide)
  · obtain ⟨c, hc⟩ := craterDiameterKm_real_isSome (calculateAllMetrics.mass 1000)
      (calculateAllMetrics.velocity 20) (by simp [calculateAllMetrics.mass]) "rock" (by decide)
    exact ⟨round3 c, by simp only [calculateAllMetrics, hc, Option.map_some']⟩

/-- C4: for positive `mass_tons` and `velocity_kms` and every material that resolves to a
profile (the five keys and every string that falls back to "rock"), each of the seven
numeric fields returned by `calculateAllMetrics` is its unrounded value rounded to 3
decimals: it is `n/1000` for an integer `n` and differs from the unrounded value by at
most 0.0005. -/
theorem C4_fields_rounded (mass_tons velocity_kms : ℝ) (target_material : String)
    (hm : 0 < mass_tons) (_hv : 0 < velocity_kms)
    (hmat : target_material ∉ objectPrototypeKeys) :
    IsRounded3 (some mass_tons)
      (calculateAllMetrics realMath mass_tons velocity_kms target_material).mass_tons ∧
    IsRounded3 (some velocity_kms)
      (calculateAllMetrics realMath mass_tons velocity_kms target_material).velocity_kms ∧
    IsRounded3 (some (calculateAllMetrics.energyMegatonsTnt mass_tons velocity_kms))
      (calculateAllMetrics realMath mass_tons velocity_kms target_material).energy_megatons_tnt ∧
    IsRounded3
      (craterDiameterKm realMath (mass_tons * 1000) (velocity_kms * 1000) target_material)
      (calculateAllMetrics realMath mass_tons velocity_kms target_material).crater_km ∧
    IsRounded3 (airBlastRadiusKm realMath (mass_tons * 1000) (velocity_kms * 1000))
      (calculateAllMetrics realMath mass_tons velocity_kms target_material).air_km ∧
    IsRounded3 (shockWaveRadiusKm realMath (mass_tons * 1000) (velocity_kms * 1000) 0.0015)
      (calculateAllMetrics realMath mass_tons velocity_kms target_material).shock_km ∧
    IsRounded3
      (thermalRadiationRadiusKm realMath (mass_tons * 1000) (velocity_kms * 1000) 0.2 150000)
      (calculateAllMetrics realMath mass_tons velocity_kms target_material).thermal_km := by
  have hm1 : (0 : ℝ) ≤ mass_tons * 1000 := by positivity
  have hke := kineticEnergy_nonneg (mass_tons * 1000) (velocity_kms * 1000) hm1
  refine ⟨isRounded3_map _, isRounded3_map _, ?_, ?_, ?_, ?_, ?_⟩
  · rw [calculateAllMetrics_energy, ← energyMegatonsTnt_eq_spec]; exact isRounded3_map _
  · obtain ⟨c, hc⟩ := craterDiameterKm_real_isSome (mass_tons * 1000) (velocity_kms * 1000) hm1
      target_material hmat
    simp only [calculateAllMetrics, calculateAllMetrics.mass, calculateAllMetrics.velocity, hc]
    exact isRounded3_map c
  · simp only [calculateAllMetrics, calculateAllMetrics.mass, calculateAllMetrics.velocity,
      airBlastRadiusKm, realMath_pow_of_nonneg _ _ hke, Option.map_some']
    exact isRounded3_map _
  · simp only [calculateAllMetrics, calculateAllMetrics.mass, calculateAllMetrics.velocity,
      shockWaveRadiusKm, realMath_pow_of_nonneg _ _ hke, Option.map_some']
    exact isRounded3_map _
  · have hpos : (0 : ℝ) ≤ 0.2 * kineticEnergy (mass_tons * 1000) (velocity_kms * 1000) /
        (4 * realMath.PI * 150000) := by
      have hpi : (0 : ℝ) < realMath.PI := Real.pi_pos
      positivity
    simp only [calculateAllMetrics, calculateAllMetrics.mass, calculateAllMetrics.velocity,
      thermalRadiationRadiusKm, realMath_sqrt_of_nonneg _ hpos, Option.map_some']
    exact isRounded3_map _

/-- C4 at mass 1000 t, velocity 20 km/s and "rock". -/
theorem C4_fields_rounded_witness :
    (0 : ℝ) < 1000 ∧ (0 : ℝ) < 20 ∧ "rock" ∉ objectPrototypeKeys ∧
    (IsRounded3 (some (1000 : ℝ)) (calculateAllMetrics realMath 1000 20 "rock").mass_tons ∧
    IsRounded3 (some (20 : ℝ)) (calculateAllMetrics realMath 1000 20 "rock").velocity_kms ∧
    IsRounded3 (some (calculateAllMetrics.energyMegatonsTnt (1000 : ℝ) 20))
      (calculateAllMetrics realMath 1000 20 "rock").energy_megatons_tnt ∧
    IsRounded3 (craterDiameterKm realMath (1000 * 1000) (20 * 1000) "rock")
      (calculateAllMetrics realMath 1000 20 "rock").crater_km ∧
    IsRounded3 (airBlastRadiusKm realMath (1000 * 1000) (20 * 1000))
      (calculateAllMetrics realMath 1000 20 "rock").air_km ∧
    IsRounded3 (shockWaveRadiusKm realMath (1000 * 1000) (20 * 1000) 0.0015)
      (calculateAllMetrics realMath 1000 20 "rock").shock_km ∧
    IsRounded3 (thermalRadiationRadiusKm realMath (1000 * 1000) (20 * 1000) 0.2 150000)
      (calculateAllMetrics realMath 1000 20 "rock").thermal_km) :=
  ⟨by norm_num, by norm_num, by decide,
    C4_fields_rounded 1000 20 "rock" (by norm_num) (by norm_num) (by decide)⟩

/-- C5, as the claim states it, fails: for the masses 1 < 2 at velocity 1 the returned
`energy_megatons_tnt` is 0 both times, so the first is not strictly less than the
second. -/
theorem C5_counterexample :
    (0 : ℝ) < 1 ∧ (1 : ℝ) < 2 ∧
    ∃ e1 e2 : ℝ, (calculateAllMetrics realMath 1 1 "rock").energy_megatons_tnt = some e1 ∧
      (calculateAllMetrics realMath 2 1 "rock").energy_megatons_tnt = some e2 ∧
      ¬ (e1 < e2) := by
  refine ⟨by norm_num, by norm_num, 0, 0, ?_, ?_, lt_irrefl 0⟩
  · rw [calculateAllMetrics_energy, energyMegatonsSpec_eq, round3, jsRound_eq _ 0] <;> norm_num
  · rw [calculateAllMetrics_energy, energyMegatonsSpec_eq, round3, jsRound_eq _ 0] <;> norm_num

/-- C5, amended: for positive `m1 < m2` and positive `v1 < v2` the unrounded energy
`energyMegatonsTnt` is strictly increasing in the mass and in the velocity, and the
returned field `energy_megatons_tnt` is non-decreasing in the mass and in the velocity. -/
theorem C5_energy_monotone [LinearOrderedField α] [FloorRing α]
    (J : JSMath α) (m1 m2 v1 v2 : α) (mat : String)
    (hm1 : 0 < m1) (hm : m1 < m2) (hv1 : 0 < v1) (hv : v1 < v2) :
    calculateAllMetrics.energyMegatonsTnt m1 v1 < calculateAllMetrics.energyMegatonsTnt m2 v1 ∧
    calculateAllMetrics.energyMegatonsTnt m1 v1 < calculateAllMetrics.energyMegatonsTnt m1 v2 ∧
    (∃ e1 e2 : α, (calculateAllMetrics J m1 v1 mat).energy_megatons_tnt = some e1 ∧
      (calculateAllMetrics J m2 v1 mat).energy_megatons_tnt = some e2 ∧ e1 ≤ e2) ∧
    (∃ e1 e2 : α, (calculateAllMetrics J m1 v1 mat).energy_megatons_tnt = some e1 ∧
      (calculateAllMetrics J m1 v2 mat).energy_megatons_tnt = some e2 ∧ e1 ≤ e2) := by
  have hv1sq : 0 < v1 ^ 2 := by positivity
  have hsq : v1 ^ 2 < v2 ^ 2 := by nlinarith
  have h1 : energyMegatonsSpec m1 v1 < energyMegatonsSpec m2 v1 := by
    simp only [energyMegatonsSpec_eq]
    have h3 : m1 * v1 ^ 2 < m2 * v1 ^ 2 := mul_lt_mul_of_pos_right hm hv1sq
    linarith
  have h2 : energyMegatonsSpec m1 v1 < energyMegatonsSpec m1 v2 := by
    simp only [energyMegatonsSpec_eq]
    have h3 : m1 * v1 ^ 2 < m1 * v2 ^ 2 := mul_lt_mul_of_pos_left hsq hm1
    linarith
  simp only [energyMegatonsTnt_eq_spec, calculateAllMetrics_energy]
  exact ⟨h1, h2, ⟨_, _, rfl, rfl, round3_mono h1.le⟩, ⟨_, _, rfl, rfl, round3_mono h2.le⟩⟩

/-- C5, amended, at the masses 1 < 2 and the velocities 1 < 2. -/
theorem C5_energy_monotone_witness :
    (0 : ℝ) < 1 ∧ (1 : ℝ) < 2 ∧
    calculateAllMetrics.energyMegatonsTnt (1 : ℝ) 1 <
      calculateAllMetrics.energyMegatonsTnt (2 : ℝ) 1 ∧
    calculateAllMetrics.energyMegatonsTnt (1 : ℝ) 1 <
      calculateAllMetrics.energyMegatonsTnt (1 : ℝ) 2 ∧
    (∃ e1 e2 : ℝ, (calculateAllMetrics realMath 1 1 "rock").energy_megatons_tnt = some e1 ∧
      (calculateAllMetrics realMath 2 1 "rock").energy_megatons_tnt = some e2 ∧ e1 ≤ e2) ∧
    (∃ e1 e2 : ℝ, (calculateAllMetrics realMath 1 1 "rock").energy_megatons_tnt = some e1 ∧
      (calculateAllMetrics realMath 1 2 "rock").energy_megatons_tnt = some e2 ∧ e1 ≤ e2) :=
  ⟨by norm_num, by norm_num,
    C5_energy_monotone realMath 1 2 1 2 "rock" (by norm_num) (by norm_num) (by norm_num)
      (by norm_num)⟩

/-- C6, as the claim states it, fails: the velocity -20 km/s is not positive, and
`calculateAllMetrics(1000000, -20, "rock")` returns a record with the energy 42 and the
severity "High". -/
theorem C6_counterexample :
    (-20 : ℝ) ≤ 0 ∧
    (calculateAllMetrics realMath 1000000 (-20) "rock").energy_megatons_tnt = some 42 ∧
    (calculateAllMetrics realMath 1000000 (-20) "rock").severity = "High" := by
  refine ⟨by norm_num, ?_, ?_⟩
  · rw [calculateAllMetrics_energy, energyMegatonsSpec_eq, round3, jsRound_eq _ 42000] <;>
      norm_num
  · rw [calculateAllMetrics_severity, (severity_cases _).2.2.2.1, energyMegatonsSpec_eq]
    norm_num

/-- C6, amended: `calculateAllMetrics` validates nothing. On an input with
`mass_tons ≤ 0` or `velocity_kms ≤ 0` it returns a record whose energy and severity follow
from `E` as on any other input; with `mass_tons ≤ 0` or `velocity_kms = 0` that is
`E ≤ 0` and the severity "Very Low"; with a positive mass and a negative velocity the
energy and the severity are those of the opposite, positive, velocity. -/
theorem C6_no_validation [LinearOrderedField α] [FloorRing α]
    (J : JSMath α) (m v : α) (mat : String) (h : m ≤ 0 ∨ v ≤ 0) :
    (calculateAllMetrics J m v mat).energy_megatons_tnt =
        some (round3 (energyMegatonsSpec m v)) ∧
    (calculateAllMetrics J m v mat).severity =
        calculateAllMetrics.severity (energyMegatonsSpec m v) ∧
    (((m ≤ 0 ∨ v = 0) ∧ energyMegatonsSpec m v ≤ 0 ∧
        (calculateAllMetrics J m v mat).severity = "Very Low") ∨
     (0 < m ∧ v < 0 ∧
        (calculateAllMetrics J m v mat).energy_megatons_tnt =
          (calculateAllMetrics J m (-v) mat).energy_megatons_tnt ∧
        (calculateAllMetrics J m v mat).severity =
          (calculateAllMetrics J m (-v) mat).severity)) := by
  refine ⟨calculateAllMetrics_energy J m v mat, calculateAllMetrics_severity J m v mat, ?_⟩
  by_cases hc : m ≤ 0 ∨ v = 0
  · left
    have hE : energyMegatonsSpec m v ≤ 0 := by
      rw [energyMegatonsSpec_eq]
      rcases hc with hm | hv
      · have h3 : m * v ^ 2 ≤ 0 := mul_nonpos_of_nonpos_of_nonneg hm (sq_nonneg v)
        linarith
      · subst hv; simp
    refine ⟨hc, hE, ?_⟩
    rw [calculateAllMetrics_severity, (severity_cases _).1]
    have h3 : (0 : α) < 0.1 := by norm_num
    linarith
  · right
    rw [not_or] at hc
    have hm : 0 < m := not_le.mp hc.1
    have hv : v < 0 := lt_of_le_of_ne (h.resolve_left hc.1) hc.2
    have e : energyMegatonsSpec m (-v) = energyMegatonsSpec m v := by
      simp only [energyMegatonsSpec_eq]; ring
    refine ⟨hm, hv, ?_, ?_⟩
    · rw [calculateAllMetrics_energy, calculateAllMetrics_energy, e]
    · rw [calculateAllMetrics_severity, calculateAllMetrics_severity, e]

/-- C6, amended, at mass 0 t and velocity 5 km/s. -/
theorem C6_no_validation_witness :
    ((0 : ℝ) ≤ 0 ∨ (5 : ℝ) ≤ 0) ∧
    (calculateAllMetrics realMath 0 5 "rock").energy_megatons_tnt =
        some (round3 (energyMegatonsSpec (0 : ℝ) 5)) ∧
    (calculateAllMetrics realMath 0 5 "rock").severity =
        calculateAllMetrics.severity (energyMegatonsSpec (0 : ℝ) 5) ∧
    ((((0 : ℝ) ≤ 0 ∨ (5 : ℝ) = 0) ∧ energyMegatonsSpec (0 : ℝ) 5 ≤ 0 ∧
        (calculateAllMetrics realMath 0 5 "rock").severity = "Very Low") ∨
     ((0 : ℝ) < 0 ∧ (5 : ℝ) < 0 ∧
        (calculateAllMetrics realMath 0 5 "rock").energy_megatons_tnt =
          (calculateAllMetrics realMath 0 (-5) "rock").energy_megatons_tnt ∧
        (calculateAllMetrics realMath 0 5 "rock").severity =
          (calculateAllMetrics realMath 0 (-5) "rock").severity)) :=
  ⟨Or.inl le_rfl, C6_no_validation realMath 0 5 "rock" (Or.inl le_rfl)⟩

/-- C7, as the claim states it, fails: at mass 1,000,000 kg and velocity 20,000 m/s the
crater for "water" is smaller than the crater for "sand". -/
theorem C7_counterexample :
    ∃ cw cs : ℝ, craterDiameterKm realMath 1000000 20000 "water" = some cw ∧
      craterDiameterKm realMath 1000000 20000 "sand" = some cs ∧ ¬ (cw ≥ cs) := by
  obtain ⟨cw, cs, h1, h2, h3⟩ := craterDiameterKm_lt 1000000 20000 (by norm_num) (by norm_num)
    "water" "sand" _ _ rfl rfl rfl (by norm_num) (by norm_num) (by norm_num) (by norm_num)
    (by norm_num)
  exact ⟨cw, cs, h1, h2, not_le.mpr h3⟩

/-- C7, amended: for positive mass and velocity the crater diameters for the same
(mass, velocity) are ordered ice > sand > forest > water > rock. -/
theorem C7_crater_order (m v : ℝ) (hm : 0 < m) (hv : 0 < v) :
    ∃ ice sand forest water rock : ℝ,
      craterDiameterKm realMath m v "ice" = some ice ∧
      craterDiameterKm realMath m v "sand" = some sand ∧
      craterDiameterKm realMath m v "forest" = some forest ∧
      craterDiameterKm realMath m v "water" = some water ∧
      craterDiameterKm realMath m v "rock" = some rock ∧
      ice > sand ∧ sand > forest ∧ forest > water ∧ water > rock := by
  obtain ⟨s1, i1, hs1, hi1, h1⟩ := craterDiameterKm_lt m v hm hv.ne' "sand" "ice" _ _ rfl rfl rfl
    (by norm_num) (by norm_num) (by norm_num) (by norm_num) (by norm_num)
  obtain ⟨f1, s2, hf1, hs2, h2⟩ := craterDiameterKm_lt m v hm hv.ne' "forest" "sand" _ _ rfl rfl
    rfl (by norm_num) (by norm_num) (by norm_num) (by norm_num) (by norm_num)
  obtain ⟨w1, f2, hw1, hf2, h3⟩ := craterDiameterKm_lt m v hm hv.ne' "water" "forest" _ _ rfl
    rfl rfl (by norm_num) (by norm_num) (by norm_num) (by norm_num) (by norm_num)
  obtain ⟨r1, w2, hr1, hw2, h4⟩ := craterDiameterKm_lt m v hm hv.ne' "rock" "water" _ _ rfl rfl
    rfl (by norm_num) (by norm_num) (by norm_num) (by norm_num) (by norm_num)
  have es : s2 = s1 := Option.some.inj (hs2.symm.trans hs1)
  have ef : f2 = f1 := Option.some.inj (hf2.symm.trans hf1)
  have ew : w2 = w1 := Option.some.inj (hw2.symm.trans hw1)
  subst es ef ew
  exact ⟨i1, s2, f2, w2, r1, hi1, hs1, hf1, hw1, hr1, h1, h2, h3, h4⟩

/-- C7, amended, at mass 1,000,000 kg and velocity 20,000 m/s. -/
theorem C7_crater_order_witness :
    (0 : ℝ) < 1000000 ∧ (0 : ℝ) < 20000 ∧
    ∃ ice sand forest water rock : ℝ,
      craterDiameterKm realMath 1000000 20000 "ice" = some ice ∧
      craterDiameterKm realMath 1000000 20000 "sand" = some sand ∧
      craterDiameterKm realMath 1000000 20000 "forest" = some forest ∧
      craterDiameterKm realMath 1000000 20000 "water" = some water ∧
      craterDiameterKm realMath 1000000 20000 "rock" = some rock ∧
      ice > sand ∧ sand > forest ∧ forest > water ∧ water > rock :=
  ⟨by norm_num, by norm_num, C7_crater_order 1000000 20000 (by norm_num) (by norm_num)⟩

/-- C8: the second line of `generateInsights` names an effect whose value is the maximum
of the three, and every effect earlier in the order air, shock, thermal has a strictly
smaller value: among tied maxima the earliest is named. -/
theorem C8_largest_effect [LinearOrderedField α] [FloorRing α]
    (T : JSText α) (metrics : ImpactMetrics α) :
    ∃ i : Fin 3,
      (generateInsights T metrics)[1]? = some (effectName i ++
        " is the largest zone here. Atmospheric pressure waves travel farther than intense heat, so blast/shock often extend beyond thermal effects.") ∧
      (∀ j : Fin 3, effectValue metrics j ≤ effectValue metrics i) ∧
      (∀ j : Fin 3, j < i → effectValue metrics j < effectValue metrics i) := by
  rw [generateInsights_second]
  simp only [generateInsights.largest, List.foldl, generateInsights.pick]
  by_cases h1 : orZero metrics.shock_km > orZero metrics.air_km
  · by_cases h2 : orZero metrics.thermal_km > orZero metrics.shock_km
    · refine ⟨2, by simp [h1, h2, effectName], ?_, ?_⟩
      · intro j; fin_cases j <;> simp [effectValue] <;> linarith
      · intro j hj; fin_cases j <;> simp [effectValue] at hj ⊢ <;> linarith
    · refine ⟨1, by simp [h1, h2, effectName], ?_, ?_⟩
      · intro j; fin_cases j <;> simp [effectValue] <;> linarith
      · intro j hj
        fin_cases j <;> simp [effectValue] at hj ⊢
        linarith
  · by_cases h2 : orZero metrics.thermal_km > orZero metrics.air_km
    · refine ⟨2, by simp [h1, h2, effectName], ?_, ?_⟩
      · intro j; fin_cases j <;> simp [effectValue] <;> linarith
      · intro j hj; fin_cases j <;> simp [effectValue] at hj ⊢ <;> linarith
    · refine ⟨0, by simp [h1, h2, effectName], ?_, ?_⟩
      · intro j; fin_cases j <;> simp [effectValue] <;> linarith
      · intro j hj; exact absurd hj (Fin.not_lt_zero j)

/-- C9: from any animation state `resetAnimation` produces the initial state (the count
of `Math.random()` calls apart): frame 0, the three flags false, both particle
collections of length 0 and no restart button, all in the one call. -/
theorem C9_reset (s : AnimationState α) :
    resetAnimation s =
      { frame := 0, particles := [], craterParticles := [], exploded := false,
        craterFormed := false, animationComplete := false, restartButton := false,
        draws := s.draws } ∧
    (resetAnimation s).frame = 0 ∧
    (resetAnimation s).exploded = false ∧
    (resetAnimation s).craterFormed = false ∧
    (resetAnimation s).animationComplete = false ∧
    (resetAnimation s).particles.length = 0 ∧
    (resetAnimation s).craterParticles.length = 0 ∧
    (resetAnimation s).restartButton = false := by
  cases h : s.restartButton <;> simp [resetAnimation, initialState, h]

/-- C10: in the run of `tick` from the initial state, the tick at every frame below 90
starts and ends with no particle and `exploded` false; the tick at frame 90 starts with
no particle, spawns exactly 40 explosion particles and sets `exploded`; every later tick
finds `exploded` set and only updates the particles it found, so none is added. -/
theorem C10_explosion_once [LinearOrderedField α] [FloorRing α] (S : Scene α) :
    (∀ i : Fin 90,
      (run S i).frame = i ∧ (run S i).exploded = false ∧ (run S i).particles = [] ∧
      (tick S (run S i)).particles = [] ∧ (tick S (run S i)).exploded = false) ∧
    ((run S 90).frame = 90 ∧ (run S 90).exploded = false ∧ (run S 90).particles = [] ∧
      (spawnParticles S 40 (run S 90)).particles.length = 40 ∧
      (tick S (run S 90)).particles =
        updateParticles (spawnParticles S 40 (run S 90)).particles ∧
      (tick S (run S 90)).exploded = true) ∧
    (∀ k : ℕ,
      (run S (91 + k)).frame = 91 + k ∧ (run S (91 + k)).exploded = true ∧
      (tick S (run S (91 + k))).particles = updateParticles (run S (91 + k)).particles ∧
      (tick S (run S (91 + k))).particles.length ≤ (run S (91 + k)).particles.length ∧
      (tick S (run S (91 + k))).exploded = true) := by
  refine ⟨?_, ?_, ?_⟩
  · intro i
    have hi : (i : ℕ) < 90 := i.2
    have hn : (run S i).frame < travelTime := by rw [run_frame]; exact hi
    obtain ⟨h1, h2⟩ := run_flight S i (by omega)
    refine ⟨run_frame S i, h2, h1, ?_, ?_⟩
    · rw [(tick_flight S _ hn).1, h1]
    · rw [(tick_flight S _ hn).2, h2]
  · have hn : ¬ (run S 90).frame < travelTime := by rw [run_frame]; unfold travelTime; omega
    obtain ⟨h1, h2⟩ := run_flight S 90 le_rfl
    refine ⟨run_frame S 90, h2, h1, ?_, ?_, ?_⟩
    · rw [spawnParticles_length, h1]; rfl
    · rw [(tick_impact S _ hn).1]; simp [tick.explode, h2]
    · rw [(tick_impact S _ hn).2]; simp [tick.explode, h2]
  · intro k
    have hn : ¬ (run S (91 + k)).frame < travelTime := by
      rw [run_frame]; unfold travelTime; omega
    have he := run_exploded S k
    have hp : (tick S (run S (91 + k))).particles =
        updateParticles (run S (91 + k)).particles := by
      rw [(tick_impact S _ hn).1]; simp [tick.explode, he]
    refine ⟨run_frame S _, he, hp, ?_, ?_⟩
    · rw [hp]; exact updateParticles_length _
    · rw [(tick_impact S _ hn).2]; simp [tick.explode, he]

/-- C11, as the claim states it, fails: in the run of the sample session the state at
frame 91, which is below `travelTime + craterStart` = 180, has `craterFormed` set, and the
tick at frame 180 adds no crater particle. -/
theorem C11_counterexample :
    (run sampleScene 91).frame = 91 ∧ 91 < travelTime + tick.craterStart ∧
    (run sampleScene 91).craterFormed = true ∧
    (tick sampleScene (run sampleScene 180)).craterParticles.length ≤
      (run sampleScene 180).craterParticles.length := by
  refine ⟨run_frame _ 91, by decide, run_craterFormed sampleScene 0, ?_⟩
  have hn : ¬ (run sampleScene 180).frame < travelTime := by
    rw [run_frame]; unfold travelTime; omega
  exact (tick_crater_formed sampleScene _ hn (run_craterFormed sampleScene 89)).2

/-- C11, amended: in the run of `tick` from the initial state the crater burst fires
exactly once, on the tick at frame `craterStart` = 90, the tick of the explosion burst.
At the start of every tick with frame at most 90 `craterFormed` is false and there is no
crater particle; the tick at frame 90 calls `spawnCraterParticles`, which adds
`numParticles` crater particles, and sets `craterFormed`; at every later tick
`craterFormed` is set and stays so, and the tick adds no crater particle. -/
theorem C11_crater_once [LinearOrderedField α] [FloorRing α] (S : Scene α) :
    (∀ i : Fin 91,
      (run S i).frame = i ∧ (run S i).craterFormed = false ∧
      (run S i).craterParticles = []) ∧
    ((tick S (run S 90)).craterFormed = true ∧
      (tick S (run S 90)).craterParticles =
        (spawnCraterParticles S (tick.explode S (run S 90))).craterParticles ∧
      (tick S (run S 90)).craterParticles.length = spawnCraterParticles.numParticles S ∧
      (tick S (run S 90)).exploded = true) ∧
    (∀ k : ℕ,
      (run S (91 + k)).frame = 91 + k ∧ (run S (91 + k)).craterFormed = true ∧
      (tick S (run S (91 + k))).craterFormed = true ∧
      (tick S (run S (91 + k))).craterParticles.length ≤
        (run S (91 + k)).craterParticles.length) := by
  refine ⟨?_, ?_, ?_⟩
  · intro i
    obtain ⟨h1, h2⟩ := run_flight_crater S i (by omega)
    exact ⟨run_frame S i, h2, h1⟩
  · obtain ⟨h1, h2⟩ := run_flight_crater S 90 le_rfl
    obtain ⟨h3, h4⟩ := tick_crater_fire S _ (run_frame S 90) h2
    refine ⟨h3, h4, ?_, ?_⟩
    · rw [h4, spawnCraterParticles_length, (explode_crater S _).1, h1]
      simp
    · have h5 := run_exploded S 0
      rwa [show 91 + 0 = 90 + 1 from rfl, run_succ] at h5
  · intro k
    have hn : ¬ (run S (91 + k)).frame < travelTime := by
      rw [run_frame]; unfold travelTime; omega
    have hc := run_craterFormed S k
    exact ⟨run_frame S _, hc, (tick_crater_formed S _ hn hc).1,
      (tick_crater_formed S _ hn hc).2⟩

/-- C12: one call of `updateParticles` leaves exactly the particles whose life was above
1, in their order, each moved once, which takes 1 from its life; one call of
`updateCraterParticles` does the same to the crater particles. So neither collection
grows and every particle left has a positive life. -/
theorem C12_update_keeps_living [LinearOrderedField α] (S : Scene α) (s : AnimationState α)
    (particles : List (Particle α)) :
    updateParticles particles =
      (particles.filter (fun p => 1 < p.life)).map updateParticles.move ∧
    (∀ p : Particle α, (updateParticles.move p).life = p.life - 1) ∧
    (updateParticles particles).length ≤ particles.length ∧
    (∀ q ∈ updateParticles particles, 0 < q.life) ∧
    List.Forall₂ (fun p q => ∃ r, q = updateCraterParticles.move p r)
      (s.craterParticles.filter (fun p => 1 < p.life))
      (updateCraterParticles S s).craterParticles ∧
    (∀ (p : CraterParticle α) (r : α), (updateCraterParticles.move p r).life = p.life - 1) ∧
    (updateCraterParticles S s).craterParticles.length ≤ s.craterParticles.length ∧
    (∀ q ∈ (updateCraterParticles S s).craterParticles, 0 < q.life) := by
  refine ⟨updateParticles_spec particles, fun _ => rfl, updateParticles_length particles, ?_,
    updateCraterParticles_spec S s, fun _ _ => rfl, updateCraterParticles_length S s, ?_⟩
  · intro q hq
    rw [updateParticles_spec, List.mem_map] at hq
    obtain ⟨p, hp, rfl⟩ := hq
    have h1 : 1 < p.life := by simpa using (List.mem_filter.mp hp).2
    show 0 < p.life - 1
    linarith
  · intro q hq
    have h := updateCraterParticles_spec S s
    generalize (updateCraterParticles S s).craterParticles = out at h hq
    generalize hl : s.craterParticles.filter (fun p => 1 < p.life) = l at h
    have hall : ∀ p ∈ l, 1 < p.life := by
      intro p hp
      rw [← hl] at hp
      simpa using (List.mem_filter.mp hp).2
    clear hl
    induction h with
    | nil => cases hq
    | cons hpq _ ih =>
      rcases List.mem_cons.mp hq with rfl | hq2
      · obtain ⟨r, rfl⟩ := hpq
        have h1 := hall _ (List.mem_cons_self _ _)
        show 0 < _ - 1
        linarith
      · exact ih hq2 (fun p hp => hall p (List.mem_cons_of_mem _ hp))

/-- C13: on a canvas with a non-zero `maxVisualRadius`, for two rings `a`, `b` of `rings`
with `b.km > 0` and an expansion fraction in (0, 1], the radii that `drawRings` draws
satisfy `finalR a / finalR b = a.km / b.km` (and `finalR b` is not 0). The sine of the
runtime is taken to lie in [-1, 1]. -/
theorem C13_ring_ratio [LinearOrderedField α] [FloorRing α] (S : Scene α)
    (a b : Ring α) (expansion : α)
    (hV : maxVisualRadius S ≠ 0) (hsin : ∀ x, -1 ≤ S.J.sin x ∧ S.J.sin x ≤ 1)
    (_ha : a ∈ rings S) (_hb : b ∈ rings S) (hkm : 0 < b.km)
    (h0 : 0 < expansion) (h1 : expansion ≤ 1) :
    drawRings.finalR S expansion a.km / drawRings.finalR S expansion b.km = a.km / b.km ∧
    drawRings.finalR S expansion b.km ≠ 0 := by
  have hc := finalR_one_ne_zero S expansion hV hsin h0 h1
  rw [finalR_eq S expansion a.km, finalR_eq S expansion b.km]
  exact ⟨mul_div_mul_right _ _ hc, mul_ne_zero hkm.ne' hc⟩

/-- C13 in the sample session, for the rings Thermal and Air at expansion 0.5. -/
theorem C13_ring_ratio_witness :
    maxVisualRadius sampleScene ≠ 0 ∧
    (∀ x, -1 ≤ sampleScene.J.sin x ∧ sampleScene.J.sin x ≤ 1) ∧
    (⟨"Thermal", 4.607, "rgba(255,140,0,0.12)", "rgba(255,140,0,0.9)"⟩ : Ring ℝ) ∈
      rings sampleScene ∧
    (⟨"Air", 105.265, "rgba(65,105,225,0.10)", "rgba(65,105,225,0.9)"⟩ : Ring ℝ) ∈
      rings sampleScene ∧
    (0 : ℝ) < 105.265 ∧ (0 : ℝ) < 0.5 ∧ (0.5 : ℝ) ≤ 1 ∧
    drawRings.finalR sampleScene 0.5 4.607 / drawRings.finalR sampleScene 0.5 105.265 =
      4.607 / 105.265 ∧
    drawRings.finalR sampleScene 0.5 105.265 ≠ 0 := by
  have hV : maxVisualRadius sampleScene ≠ 0 :=
    (maxVisualRadius_pos sampleScene (by show (0 : ℝ) < 600; norm_num)
      (by show (1 : ℝ) ≤ 400; norm_num)).ne'
  have ha : (⟨"Thermal", 4.607, "rgba(255,140,0,0.12)", "rgba(255,140,0,0.9)"⟩ : Ring ℝ) ∈
      rings sampleScene := by simp [rings, sampleScene, orZero]
  have hb : (⟨"Air", 105.265, "rgba(65,105,225,0.10)", "rgba(65,105,225,0.9)"⟩ : Ring ℝ) ∈
      rings sampleScene := by simp [rings, sampleScene, orZero]
  have h := C13_ring_ratio sampleScene _ _ 0.5 hV sampleScene_sin ha hb (by norm_num)
    (by norm_num) (by norm_num)
  dsimp only at h
  exact ⟨hV, sampleScene_sin, ha, hb, by norm_num, by norm_num, by norm_num, h⟩

/-- C14, as the claim states it, fails: for mass 950000 t at 1 km/s the energy is
0.09975; the record carries the rounded energy 0.1, for which the thresholds give "Low",
and the severity "Very Low". -/
theorem C14_counterexample :
    (0 : ℝ) < 950000 ∧ (0 : ℝ) < 1 ∧
    (calculateAllMetrics realMath 950000 1 "rock").energy_megatons_tnt = some 0.1 ∧
    (calculateAllMetrics realMath 950000 1 "rock").severity = "Very Low" ∧
    calculateAllMetrics.severity (0.1 : ℝ) = "Low" ∧
    calculateAllMetrics.severity (0.1 : ℝ) ≠
      (calculateAllMetrics realMath 950000 1 "rock").severity := by
  have hs : (calculateAllMetrics realMath 950000 1 "rock").severity = "Very Low" := by
    rw [calculateAllMetrics_severity, (severity_cases _).1, energyMegatonsSpec_eq]; norm_num
  have hl : calculateAllMetrics.severity (0.1 : ℝ) = "Low" := by
    rw [(severity_cases _).2.1]; norm_num
  refine ⟨by norm_num, by norm_num, ?_, hs, hl, ?_⟩
  · rw [calculateAllMetrics_energy, energyMegatonsSpec_eq, round3, jsRound_eq _ 100] <;> norm_num
  · rw [hs, hl]; decide

/-- C14, amended: the returned severity is the thresholds applied to the unrounded
energy `E`, and the returned energy is `E` rounded to 3 decimals. Applying the thresholds
to the returned energy yields the returned severity exactly when `E` is not within 0.0005
below a threshold, that is, in none of [0.0995, 0.1), [0.9995, 1), [9.9995, 10),
[99.9995, 100). -/
theorem C14_severity_of_rounded [LinearOrderedField α] [FloorRing α]
    (J : JSMath α) (mass_tons velocity_kms : α) (target_material : String) :
    (calculateAllMetrics J mass_tons velocity_kms target_material).energy_megatons_tnt =
      some (round3 (calculateAllMetrics.energyMegatonsTnt mass_tons velocity_kms)) ∧
    (calculateAllMetrics J mass_tons velocity_kms target_material).severity =
      calculateAllMetrics.severity
        (calculateAllMetrics.energyMegatonsTnt mass_tons velocity_kms) ∧
    (calculateAllMetrics.severity
        (round3 (calculateAllMetrics.energyMegatonsTnt mass_tons velocity_kms)) =
      (calculateAllMetrics J mass_tons velocity_kms target_material).severity ↔
      ¬ ((0.0995 ≤ calculateAllMetrics.energyMegatonsTnt mass_tons velocity_kms ∧
            calculateAllMetrics.energyMegatonsTnt mass_tons velocity_kms < 0.1) ∨
          (0.9995 ≤ calculateAllMetrics.energyMegatonsTnt mass_tons velocity_kms ∧
            calculateAllMetrics.energyMegatonsTnt mass_tons velocity_kms < 1) ∨
          (9.9995 ≤ calculateAllMetrics.energyMegatonsTnt mass_tons velocity_kms ∧
            calculateAllMetrics.energyMegatonsTnt mass_tons velocity_kms < 10) ∨
          (99.9995 ≤ calculateAllMetrics.energyMegatonsTnt mass_tons velocity_kms ∧
            calculateAllMetrics.energyMegatonsTnt mass_tons velocity_kms < 100))) := by
  have hs : (calculateAllMetrics J mass_tons velocity_kms target_material).severity =
      calculateAllMetrics.severity
        (calculateAllMetrics.energyMegatonsTnt mass_tons velocity_kms) := rfl
  refine ⟨rfl, hs, ?_⟩
  rw [hs]
  exact severity_round3_iff _

end Claims

end Asteroid
